import Mathlib

/-!
Shallow embedding of the simulation core in src/quests/monster/monster_game.c
(the mature module revision; monster_main.c carries an older duplicated copy
of the same logic plus transport glue, which the claims do not cite).

Modelling conventions:
* machine integers: s32 scalars become Int; u32 counters become Nat reduced
  modulo 2^32 where the source can wrap; u8 flag masks become Bool fields.
* the RNG (prandom / get_random_bytes) becomes an oracle stream Nat -> Nat,
  consumed in exactly the order the source draws random values.
* fixed-capacity slot arrays become lists of fixed length (built with
  4 empty slots per room; all operations are index updates, never resize).
* text output is abstracted to tagged messages with a destination; the
  format strings themselves carry no state and are not modelled.
-/

namespace MonsterGame

/-- Two to the power 32, the wrap modulus of u32 counters. -/
def U32 : Nat := 4294967296

/-- enum monster_stage from monster_game.h. -/
inductive Stage
| hatchling
| growing
| mature
| elder
| retired
deriving DecidableEq

/-- Numeric value of the stage enum (declaration order in the C enum). -/
def Stage.toNat : Stage → Nat
| .hatchling => 0
| .growing => 1
| .mature => 2
| .elder => 3
| .retired => 4

/-- enum monster_mood_state from monster_game.h. -/
inductive MoodState
| sleeping
| hungry
| content
| overfed
| glitching
deriving DecidableEq

/-- enum item_type from monster_game.c. -/
inductive ItemType
| none
| ramChunk
| ioToken
| cpuSlice
| junkData
| babyDaemon
deriving DecidableEq

/-- The two item flag bits ITEMF_IDENTIFIED and ITEMF_MUTATED. -/
structure Flags where
  identified : Bool
  mutated : Bool
deriving DecidableEq

/-- struct room_object: item kind, ttl in ticks, flag bits. -/
structure RoomObject where
  type : ItemType
  ttl : Nat
  flags : Flags
deriving DecidableEq

/-- struct held_item: kind plus flag bits, held in an inventory slot. -/
structure HeldItem where
  type : ItemType
  flags : Flags
deriving DecidableEq

/-- struct actor (list nodes dropped; room membership is the room_id
field; the hiding bit of the source is spelled hidden here because the
word is reserved in Lean). -/
structure Actor where
  name : String
  room_id : Nat
  hp : Nat
  hidden : Bool
  inventory : List HeldItem
  selected_slot : Nat
deriving DecidableEq

/-- struct helper_state; the u8 helpers bitmask becomes three Bool fields
(bit 0 = memory sprite, bit 1 = scheduler blessing, bit 2 = io pixie). -/
structure HelperState where
  memorySprite : Bool
  schedBlessing : Bool
  ioPixie : Bool
  happy_streak : Nat
  rescue_counter : Nat
  survived_ticks : Nat
deriving DecidableEq

/-- struct system_state. -/
structure SystemState where
  stability : Int
  hunger : Int
  mood : Int
  trust : Int
  tick : Nat
  junk_load : Int
  daemon_lost : Bool
  monster_state : MoodState
  helper : HelperState
  crashed : Bool
  lifecycle : Stage
deriving DecidableEq

/-- The mutable world: the system-state singleton, the per-room object
slot arrays (indexed by room id 0 nursery, 1 buffet, 2 fields), and the
global actor roster. -/
structure World where
  sys : SystemState
  objects : List (List RoomObject)
  actors : List Actor
deriving DecidableEq

def ROOM_NURSERY : Nat := 0
def ROOM_BUFFET : Nat := 1
def ROOM_FIELDS : Nat := 2
def ROOM_COUNT : Nat := 3
def ROOM_MAX_OBJECTS : Nat := 4
def INVENTORY_SLOTS : Nat := 3
def STABILITY_MAX : Int := 100
def HUNGER_MAX : Int := 10
def MOOD_MAX : Int := 10
def TRUST_MAX : Int := 10

/-- RNG oracle: an infinite stream of raw draws. -/
def Rng : Type := Nat → Nat

/-- rand_u32: take the next draw (as a u32) and advance the stream. -/
def rand_u32 (g : Rng) : Nat × Rng :=
  (g 0 % U32, fun n => g (n + 1))

/-- rand_percent: rand_u32 modulo 100. -/
def rand_percent (g : Rng) : Nat × Rng :=
  let p := rand_u32 g
  (p.1 % 100, p.2)

/-- rand_range: uniform in the closed range, lower bound if empty. -/
def rand_range (lo hi : Nat) (g : Rng) : Nat × Rng :=
  if hi ≤ lo then (lo, g)
  else
    let p := rand_u32 g
    (lo + p.1 % (hi - lo + 1), p.2)

/-- clamp_s32 from monster_game.c. -/
def clamp_s32 (v lo hi : Int) : Int :=
  if v < lo then lo else if v > hi then hi else v

def adjust_stability (delta : Int) (s : SystemState) : SystemState :=
  { s with stability := clamp_s32 (s.stability + delta) 0 STABILITY_MAX }

def adjust_hunger (delta : Int) (s : SystemState) : SystemState :=
  { s with hunger := clamp_s32 (s.hunger + delta) 0 HUNGER_MAX }

def adjust_mood (delta : Int) (s : SystemState) : SystemState :=
  { s with mood := clamp_s32 (s.mood + delta) (-MOOD_MAX) MOOD_MAX }

def adjust_trust (delta : Int) (s : SystemState) : SystemState :=
  { s with trust := clamp_s32 (s.trust + delta) 0 TRUST_MAX }

def adjust_junk (delta : Int) (s : SystemState) : SystemState :=
  { s with junk_load := clamp_s32 (s.junk_load + delta) 0 50 }

/-- recompute_monster_state: stateless classifier of the current scalars. -/
def recompute_monster_state (s : SystemState) : SystemState :=
  { s with monster_state :=
      if s.mood ≤ -4 ∨ 12 ≤ s.junk_load then MoodState.glitching
      else if 7 ≤ s.hunger then MoodState.hungry
      else if s.hunger ≤ 1 ∧ 2 ≤ s.mood then MoodState.sleeping
      else if s.hunger ≤ 1 then MoodState.overfed
      else MoodState.content }

/-- struct stage_rule. -/
structure StageRule where
  stage : Stage
  min_tick : Nat
  min_stability : Int
deriving DecidableEq

/-- The static stage_rules table. -/
def stage_rules : List StageRule :=
  [⟨Stage.growing, 120, 40⟩,
   ⟨Stage.mature, 280, 55⟩,
   ⟨Stage.elder, 480, 65⟩,
   ⟨Stage.retired, 720, 75⟩]

/-- Loop body of maybe_advance_lifecycle_locked: rules at or below the
current stage are skipped, the first unmet rule stops the walk, a met rule
advances the stage and the walk continues. -/
def advance_loop (s : SystemState) : List StageRule → SystemState
| [] => s
| r :: rest =>
  if r.stage.toNat ≤ s.lifecycle.toNat then advance_loop s rest
  else if s.tick < r.min_tick then s
  else if s.stability < r.min_stability then s
  else advance_loop { s with lifecycle := r.stage } rest

/-- maybe_advance_lifecycle_locked (broadcast text not modelled). -/
def maybe_advance_lifecycle (s : SystemState) : SystemState :=
  advance_loop s stage_rules

/-- The five crash reasons, in the priority order of the tick-end checks. -/
inductive CrashReason
| stabilityExhausted
| moodMeltdown
| trustDrained
| hungerOverflow
| junkBackpressure
deriving DecidableEq

/-- The if/else-if chain computing crash_reason at the end of
monster_game_tick. -/
def crash_reason_of (s : SystemState) : Option CrashReason :=
  if s.stability ≤ 0 then some CrashReason.stabilityExhausted
  else if s.mood ≤ -MOOD_MAX then some CrashReason.moodMeltdown
  else if s.trust ≤ 0 then some CrashReason.trustDrained
  else if HUNGER_MAX ≤ s.hunger then some CrashReason.hungerOverflow
  else if 25 ≤ s.junk_load then some CrashReason.junkBackpressure
  else none

/-- crash_report_locked: sets the crashed flag unless already crashed
(the broadcast text carrying the reason is not modelled). -/
def crash_report (s : SystemState) : SystemState :=
  if s.crashed then s else { s with crashed := true }

/-- A cleared room-object slot (ITEM_NONE). -/
def emptyObj : RoomObject := ⟨ItemType.none, 0, ⟨false, false⟩⟩

/-- An empty inventory slot. -/
def emptyHeld : HeldItem := ⟨ItemType.none, ⟨false, false⟩⟩

/-- The room object arrays right after reset: every slot cleared. -/
def initObjects : List (List RoomObject) :=
  List.replicate ROOM_COUNT (List.replicate ROOM_MAX_OBJECTS emptyObj)

/-- Slot array of one room (rooms are always well-formed in reachable
worlds; an out-of-range id yields the empty array). -/
def roomObjs (w : World) (rid : Nat) : List RoomObject :=
  w.objects.getD rid []

def setRoomObjs (w : World) (rid : Nat) (l : List RoomObject) : World :=
  { w with objects := w.objects.set rid l }

/-- Index of the first element satisfying the predicate, mirroring the
linear slot scans of the source. -/
def find_first_idx (p : α → Bool) : List α → Option Nat
| [] => Option.none
| a :: t => if p a then some 0 else (find_first_idx p t).map (fun i => i + 1)

/-- room_first_free_slot: index of the first ITEM_NONE slot. -/
def room_first_free_slot (l : List RoomObject) : Option Nat :=
  find_first_idx (fun o => o.type == ItemType.none) l

/-- room_object_count: occupied slots in one room. -/
def room_object_count (l : List RoomObject) : Nat :=
  l.countP (fun o => !(o.type == ItemType.none))

/-- room_add_object: fill the first free slot; fails when none is free.
Returns the updated world and the slot index used. -/
def room_add_object (w : World) (rid : Nat) (ty : ItemType) (ttl : Nat) :
    Option (World × Nat) :=
  match room_first_free_slot (roomObjs w rid) with
  | Option.none => Option.none
  | some i => some (setRoomObjs w rid ((roomObjs w rid).set i ⟨ty, ttl, ⟨false, false⟩⟩), i)

/-- One object slot under room_decay_objects: occupied slots with a
positive ttl tick down and evaporate when the ttl reaches zero. -/
def decayObj (o : RoomObject) : RoomObject :=
  if o.type = ItemType.none then o
  else if 0 < o.ttl then
    (if o.ttl - 1 = 0 then emptyObj else { o with ttl := o.ttl - 1 })
  else o

def room_decay_objects (w : World) (rid : Nat) : World :=
  setRoomObjs w rid ((roomObjs w rid).map decayObj)

/-- item_name strings, used by name-prefix matching in room_match_object. -/
def item_name : ItemType → String
| ItemType.ramChunk => "RAM chunk"
| ItemType.ioToken => "IO token"
| ItemType.cpuSlice => "CPU slice"
| ItemType.junkData => "junk data"
| ItemType.babyDaemon => "baby daemon"
| ItemType.none => "nothing"

def item_is_feed (t : ItemType) : Bool :=
  t == ItemType.ramChunk || t == ItemType.ioToken || t == ItemType.cpuSlice

def item_is_junk (t : ItemType) : Bool :=
  t == ItemType.junkData

/-- random_buffet_resource: 40 percent RAM chunk, 30 IO token,
20 CPU slice, 10 junk data. -/
def random_buffet_resource (g : Rng) : ItemType × Rng :=
  let pr := rand_percent g
  (if pr.1 < 40 then ItemType.ramChunk
   else if pr.1 < 70 then ItemType.ioToken
   else if pr.1 < 90 then ItemType.cpuSlice
   else ItemType.junkData, pr.2)

/-- Set the mutated flag bit on one room slot (the flags assignment after
room_add_object in spawn_buffet_resource_locked). -/
def setSlotMutated (w : World) (rid : Nat) (i : Nat) : World :=
  let l := roomObjs w rid
  let o := l.getD i emptyObj
  setRoomObjs w rid (l.set i { o with flags := { o.flags with mutated := true } })

/-- spawn_buffet_resource_locked: bail when the buffet is full, otherwise
add one weighted-random resource with ttl in 3..5; fresh junk has a
30 percent chance of the mutated flag. -/
def spawn_buffet_resource (w : World) (g : Rng) : World × Rng :=
  if room_first_free_slot (roomObjs w ROOM_BUFFET) = Option.none then (w, g)
  else
    let tyr := random_buffet_resource g
    let ttlr := rand_range 3 5 tyr.2
    match room_add_object w ROOM_BUFFET tyr.1 ttlr.1 with
    | Option.none => (w, ttlr.2)
    | some wi =>
      if tyr.1 = ItemType.junkData then
        let pr := rand_percent ttlr.2
        if pr.1 < 30 then (setSlotMutated wi.1 ROOM_BUFFET wi.2, pr.2)
        else (wi.1, pr.2)
      else (wi.1, ttlr.2)

/-- spawn_daemon_locked: one stray creature into the fields, only when the
room has space and no stray is currently loose; sets daemon_lost. -/
def spawn_daemon (w : World) (g : Rng) : World × Rng :=
  if ROOM_MAX_OBJECTS ≤ room_object_count (roomObjs w ROOM_FIELDS) then (w, g)
  else if w.sys.daemon_lost then (w, g)
  else
    let ttlr := rand_range 4 6 g
    match room_add_object w ROOM_FIELDS ItemType.babyDaemon ttlr.1 with
    | Option.none => (w, ttlr.2)
    | some wi => ({ wi.1 with sys := { wi.1.sys with daemon_lost := true } }, ttlr.2)

/-- stage_spawn_thresholds: (resource_pct, daemon_pct) per stage. -/
def stage_spawn_thresholds : Stage → Nat × Nat
| Stage.hatchling => (40, 10)
| Stage.growing => (55, 15)
| Stage.mature => (65, 25)
| Stage.elder => (70, 30)
| Stage.retired => (75, 35)

/-- Identifiers for the five entries of the game_events table. -/
inductive EventId
| resourceMutation
| moodSwing
| lostProcess
| glitchStorm
| luckySync
deriving DecidableEq

/-- The game_events table: weight, minimum stage, handler id. -/
def game_events : List (Nat × Stage × EventId) :=
  [(20, Stage.growing, EventId.resourceMutation),
   (20, Stage.hatchling, EventId.moodSwing),
   (15, Stage.mature, EventId.lostProcess),
   (15, Stage.elder, EventId.glitchStorm),
   (20, Stage.hatchling, EventId.luckySync)]

/-- Index of the first feed-type object in a room slot array. -/
def first_feed_idx (l : List RoomObject) : Option Nat :=
  find_first_idx (fun o => !(o.type == ItemType.none) && item_is_feed o.type) l

/-- event_resource_mutation: the first feed item in the buffet turns into
junk data with the mutated flag added, plus 2 junk pressure. -/
def event_resource_mutation (w : World) (g : Rng) : World × Rng :=
  match first_feed_idx (roomObjs w ROOM_BUFFET) with
  | Option.none => (w, g)
  | some i =>
    let l := roomObjs w ROOM_BUFFET
    let o := l.getD i emptyObj
    let w1 := setRoomObjs w ROOM_BUFFET
      (l.set i { o with type := ItemType.junkData,
                        flags := { o.flags with mutated := true } })
    ({ w1 with sys := adjust_junk 2 w1.sys }, g)

/-- event_mood_swing: plus 2 or minus 2 mood, even odds. -/
def event_mood_swing (w : World) (g : Rng) : World × Rng :=
  let pr := rand_percent g
  let delta : Int := if pr.1 < 50 then 2 else -2
  ({ w with sys := adjust_mood delta w.sys }, pr.2)

/-- One glitch-storm attempt: when a buffet slot is free, drop one junk
pile with ttl 2..4 (always succeeds given the free slot). -/
def glitch_storm_attempt (w : World) (g : Rng) (spawned : Nat) :
    World × Rng × Nat :=
  match room_first_free_slot (roomObjs w ROOM_BUFFET) with
  | Option.none => (w, g, spawned)
  | some _ =>
    let ttlr := rand_range 2 4 g
    match room_add_object w ROOM_BUFFET ItemType.junkData ttlr.1 with
    | Option.none => (w, ttlr.2, spawned)
    | some wi => (wi.1, ttlr.2, spawned + 1)

/-- event_glitch_storm: up to two junk piles in the buffet, plus 2 junk
pressure per pile actually spawned. -/
def event_glitch_storm (w : World) (g : Rng) : World × Rng :=
  let a1 := glitch_storm_attempt w g 0
  let a2 := glitch_storm_attempt a1.1 a1.2.1 a1.2.2
  if 0 < a2.2.2 then
    ({ a2.1 with sys := adjust_junk (a2.2.2 * 2) a2.1.sys }, a2.2.1)
  else (a2.1, a2.2.1)

/-- event_lucky_sync: minus 1 hunger, plus 2 stability, then one buffet
resource spawn attempt. -/
def event_lucky_sync (w : World) (g : Rng) : World × Rng :=
  let w1 := { w with sys := adjust_stability 2 (adjust_hunger (-1) w.sys) }
  spawn_buffet_resource w1 g

def run_event : EventId → World → Rng → World × Rng
| EventId.resourceMutation => event_resource_mutation
| EventId.moodSwing => event_mood_swing
| EventId.lostProcess => spawn_daemon
| EventId.glitchStorm => event_glitch_storm
| EventId.luckySync => event_lucky_sync

/-- Total weight of the events whose minimum stage is at or below the
current stage. -/
def eligible_weight (stage : Stage) : List (Nat × Stage × EventId) → Nat
| [] => 0
| e :: rest =>
  (if stage.toNat < e.2.1.toNat then 0 else e.1) + eligible_weight stage rest

/-- The accumulating walk that picks the event for a given lottery draw. -/
def pick_event (stage : Stage) (pick : Nat) (accum : Nat) :
    List (Nat × Stage × EventId) → Option EventId
| [] => Option.none
| e :: rest =>
  if stage.toNat < e.2.1.toNat then pick_event stage pick accum rest
  else if pick < accum + e.1 then some e.2.2
  else pick_event stage pick (accum + e.1) rest

/-- run_random_event_locked: weighted lottery over stage-eligible events;
nothing fires when the total eligible weight is zero. -/
def run_random_event (w : World) (g : Rng) : World × Rng :=
  let total := eligible_weight w.sys.lifecycle game_events
  if total = 0 then (w, g)
  else
    let vr := rand_u32 g
    match pick_event w.sys.lifecycle (vr.1 % total) 0 game_events with
    | Option.none => (w, vr.2)
    | some e => run_event e w vr.2

/-- spawn_phase_locked: stage-dependent chances for one buffet resource
spawn and one independent stray-daemon spawn. -/
def spawn_phase (w : World) (g : Rng) : World × Rng :=
  let th := stage_spawn_thresholds w.sys.lifecycle
  let p1 := rand_percent g
  let wr := if p1.1 < th.1 then spawn_buffet_resource w p1.2 else (w, p1.2)
  let p2 := rand_percent wr.2
  if p2.1 < th.2 then spawn_daemon wr.1 p2.2 else (wr.1, p2.2)

/-- The scalar block at the top of update_phase_locked: hunger gain
(suppressed by the scheduler blessing), hunger and junk penalties, the
trust regeneration drip, then the mood reclassification. -/
def update_phase_sys (s : SystemState) : SystemState :=
  let hunger_gain : Int := if s.helper.schedBlessing then 0 else 1
  let s1 := adjust_hunger hunger_gain s
  let s2 := if 8 ≤ s1.hunger then adjust_stability (-3) s1 else s1
  let s3 := if 6 ≤ s2.hunger then adjust_mood (-1) s2 else s2
  let s4 := if 0 < s3.junk_load then adjust_stability (-(min s3.junk_load 5)) s3 else s3
  let s5 := if 7 ≤ s4.trust ∧ s4.stability < STABILITY_MAX then adjust_stability 1 s4 else s4
  recompute_monster_state s5

/-- update_phase_locked: the scalar block, then the overfed sneeze and
content fork rolls. -/
def update_phase (w : World) (g : Rng) : World × Rng :=
  let w1 := { w with sys := update_phase_sys w.sys }
  let wr :=
    if w1.sys.monster_state = MoodState.overfed then
      let pr := rand_percent g
      if pr.1 < 35 then
        let ttlr := rand_range 2 4 pr.2
        match room_add_object w1 ROOM_BUFFET ItemType.junkData ttlr.1 with
        | Option.none => (w1, ttlr.2)
        | some wi => ({ wi.1 with sys := adjust_junk 2 wi.1.sys }, ttlr.2)
      else (w1, pr.2)
    else (w1, g)
  let w2 := wr.1
  if w2.sys.monster_state = MoodState.content ∧ 3 ≤ w2.sys.mood then
    let pr := rand_percent wr.2
    if pr.1 < 30 then ({ w2 with sys := adjust_stability 2 w2.sys }, pr.2)
    else (w2, pr.2)
  else (w2, wr.2)

/-- Index of the first baby daemon in a slot array. -/
def first_daemon_idx (l : List RoomObject) : Option Nat :=
  find_first_idx (fun o => o.type == ItemType.babyDaemon) l

/-- The helper-record updates of helper_phase_locked: the survival
counter, the happy streak, and the three one-way unlocks (the unlock
broadcasts carry no state). -/
def helper_unlocks (st : MoodState) (h0 : HelperState) : HelperState :=
  let h1 := { h0 with survived_ticks := (h0.survived_ticks + 1) % U32 }
  let h2 := if !h1.memorySprite && decide (20 ≤ h1.survived_ticks)
            then { h1 with memorySprite := true } else h1
  let streak :=
    if st = MoodState.content ∨ st = MoodState.sleeping
    then min (h2.happy_streak + 1) 60 else 0
  let h3 := { h2 with happy_streak := streak }
  let h4 := if !h3.schedBlessing && decide (10 ≤ h3.happy_streak)
            then { h3 with schedBlessing := true } else h3
  if !h4.ioPixie && decide (3 ≤ h4.rescue_counter)
  then { h4 with ioPixie := true } else h4

/-- helper_phase_locked: survival counter, the three one-way helper
unlocks, then the passive effects of the unlocked helpers. -/
def helper_phase (w : World) : World :=
  let h5 := helper_unlocks w.sys.monster_state w.sys.helper
  let w1 := { w with sys := { w.sys with helper := h5 } }
  let w2 := if h5.memorySprite && decide (0 < w1.sys.junk_load)
            then { w1 with sys := adjust_junk (-1) w1.sys } else w1
  let w3 :=
    if h5.ioPixie then
      match first_daemon_idx (roomObjs w2 ROOM_FIELDS) with
      | Option.none => w2
      | some i =>
        let w2a := setRoomObjs w2 ROOM_FIELDS ((roomObjs w2 ROOM_FIELDS).set i emptyObj)
        { w2a with sys :=
            adjust_stability 1 (adjust_trust 1
              { w2a.sys with daemon_lost := false }) }
    else w2
  { w3 with sys := recompute_monster_state w3.sys }

/-- cleanup_phase_locked: ttl decay in every room. -/
def cleanup_phase (w : World) : World :=
  room_decay_objects (room_decay_objects (room_decay_objects w ROOM_BUFFET) ROOM_FIELDS) ROOM_NURSERY

/-- Tick counter increment, then the spawn, update, random event, helper
and cleanup phases in the order of monster_game_tick. -/
def tick_phases (w : World) (g : Rng) : World × Rng :=
  let w0 := { w with sys := { w.sys with tick := (w.sys.tick + 1) % U32 } }
  let r1 := spawn_phase w0 g
  let r2 := update_phase r1.1 r1.2
  let r3 := run_random_event r2.1 r2.2
  (cleanup_phase (helper_phase r3.1), r3.2)

/-- monster_game_tick: no-op returning true while crashed; otherwise the
seven phases in order, ending with the priority-ordered crash check, and
returns whether the system is crashed after the tick. -/
def monster_game_tick (w : World) (g : Rng) : World × Rng × Bool :=
  if w.sys.crashed then (w, g, true)
  else
    let p := tick_phases w g
    let w6 := { p.1 with sys := maybe_advance_lifecycle p.1.sys }
    let w7 :=
      match crash_reason_of w6.sys with
      | some _ => { w6 with sys := crash_report w6.sys }
      | Option.none => w6
    (w7, p.2, w7.sys.crashed)

/-- The SystemState written by game_reset_state (which ends with a mood
recompute over the fresh scalars). -/
def resetSys : SystemState :=
  recompute_monster_state
    { stability := STABILITY_MAX, hunger := 3, mood := 0, trust := 3,
      tick := 0, junk_load := 0, daemon_lost := false,
      monster_state := MoodState.sleeping,
      helper := ⟨false, false, false, 0, 0, 0⟩,
      crashed := false, lifecycle := Stage.hatchling }

/-- game_reset_state: clear every room slot and reinitialize the
system-state singleton (actors are untouched here). -/
def game_reset_state (w : World) : World :=
  { w with objects := initObjects, sys := resetSys }

/-- The world right after monster_game_init: fresh state, empty rooms,
no actors yet. -/
def initWorld : World :=
  { sys := resetSys, objects := initObjects, actors := [] }

/- ---- Command interpreter ---------------------------------------------- -/

/-- Destination of an emitted line: the invoking session, every session
whose actor is in a room, or every session with an actor. -/
inductive Dest
| toSelf
| toRoom (rid : Nat)
| toAll
deriving DecidableEq

/-- Tags abstracting the text lines the handlers emit. -/
inductive MsgTag
| loginFirst
| alreadyLoggedIn
| usageLogin
| spawnedBanner
| stageIs
| commandsAvail
| questGoal
| lookOut
| usageGo
| noExit
| movedTo (rid : Nat)
| saySpoken
| invOut
| stateOut
| goodbye
| unknownCmd
| tipGate (required : Stage) (current : Stage)
| nothingToGrab
| noSuchItem
| daemonScoots
| invFull
| stashed (t : ItemType) (slot : Nat)
| usageAnalyze
| slotEmpty (slot : Nat)
| analyzeCorrupted
| analyzeJunk
| analyzeTasty
| feedElsewhere
| usageFeed
| monsterPurrs
| monsterGlitchesFeed
| monsterRefuses
| usageClean
| junkScrubbed
| recycled (t : ItemType)
| rescueElsewhere
| rescueDone
| nothingToRescue
| clearElsewhere
| ventedJunk (n : Nat)
| fieldsTidy
| petElsewhere
| petMsg
| debugElsewhere
| debugMsg
| singElsewhere
| singMsg
| stillRunning
| resetRestores
| resetComplete
deriving DecidableEq

/-- One emitted line: destination plus abstract content tag. -/
def Out : Type := Dest × MsgTag

/-- Digit run of kstrtol, base 10. -/
def parse_digits_go : List Char → Nat → Option Nat
| [], acc => some acc
| c :: cs, acc =>
  if c.isDigit then parse_digits_go cs (acc * 10 + (c.toNat - 48))
  else Option.none

/-- kstrtol with base 10: optional sign then a nonempty digit run, whole
string consumed (overflow handling dropped; overflowing tokens fail the
small range checks of every caller just as an error return would). -/
def kstrtol10 (s : String) : Option Int :=
  match s.data with
  | [] => Option.none
  | c :: cs =>
    if c = '-' then
      match cs with
      | [] => Option.none
      | _ => (parse_digits_go cs 0).map (fun n => -(n : Int))
    else if c = '+' then
      match cs with
      | [] => Option.none
      | _ => (parse_digits_go cs 0).map (fun n => (n : Int))
    else (parse_digits_go (c :: cs) 0).map (fun n => (n : Int))

/-- strncasecmp(name, token, strlen(token)) == 0: the token is a
case-insensitive initial segment of the name (ASCII case folding, as in
the kernel routine on these names). -/
def ci_starts : List Char → List Char → Bool
| [], _ => true
| _ :: _, [] => false
| c :: cs, d :: ds => (c.toLower == d.toLower) && ci_starts cs ds

def token_names_item (token : String) (t : ItemType) : Bool :=
  ci_starts token.data (item_name t).data

/-- room_match_object: numeric 1-based slot first (only when that slot is
occupied), then first case-insensitive name-prefix match. -/
def room_match_object (l : List RoomObject) (token : String) : Option Nat :=
  let numeric : Option Nat :=
    match kstrtol10 token with
    | some idx =>
      if 1 ≤ idx ∧ idx ≤ (ROOM_MAX_OBJECTS : Int) then
        if (l.getD (idx - 1).toNat emptyObj).type ≠ ItemType.none
        then some (idx - 1).toNat else Option.none
      else Option.none
    | Option.none => Option.none
  match numeric with
  | some i => some i
  | Option.none =>
    find_first_idx (fun o => !(o.type == ItemType.none) && token_names_item token o.type) l

/-- inventory_first_free: first empty inventory slot. -/
def inventory_first_free (a : Actor) : Option Nat :=
  find_first_idx (fun it => it.type == ItemType.none) a.inventory

/-- inventory_match_slot: the sel alias or a numeric 1-based slot;
minus one on anything else. -/
def inventory_match_slot (a : Actor) (token : String) : Int :=
  if token = "sel" then min (a.selected_slot : Int) ((INVENTORY_SLOTS : Int) - 1)
  else
    match kstrtol10 token with
    | some idx =>
      if 1 ≤ idx ∧ idx ≤ (INVENTORY_SLOTS : Int) then idx - 1 else -1
    | Option.none => -1

/-- Slot argument resolution shared by analyze, feed and clean: an absent
or empty argument falls back to the selected slot. -/
def resolve_slot (p : Actor) (arg : Option String) : Int :=
  match arg with
  | Option.none => (p.selected_slot : Int)
  | some a => if a = "" then (p.selected_slot : Int) else inventory_match_slot p a

inductive Dir
| n
| e
| s
| w
deriving DecidableEq

/-- parse_dir on the four cardinal words or single letters. -/
def parse_dir (arg : Option String) : Option Dir :=
  match arg with
  | Option.none => Option.none
  | some a =>
    if a = "n" ∨ a = "north" then some Dir.n
    else if a = "e" ∨ a = "east" then some Dir.e
    else if a = "s" ∨ a = "south" then some Dir.s
    else if a = "w" ∨ a = "west" then some Dir.w
    else Option.none

/-- The static exit tables of the three rooms (minus one = no exit). -/
def room_exit (rid : Nat) (d : Dir) : Int :=
  match rid, d with
  | 0, Dir.e => 1
  | 0, Dir.w => 2
  | 1, Dir.w => 0
  | 2, Dir.e => 0
  | _, _ => -1

/-- room_valid(start_room) ? start_room : ROOM_NURSERY, for the
runtime-configurable start_room module parameter. -/
def effStart (sr : Int) : Nat :=
  if 0 ≤ sr ∧ sr < (ROOM_COUNT : Int) then sr.toNat else ROOM_NURSERY

/-- The session player pointer: an index into the actor roster. -/
def getActor (w : World) (who : Option Nat) : Option (Nat × Actor) :=
  match who with
  | Option.none => Option.none
  | some i => (w.actors.get? i).map (fun a => (i, a))

def emptyInventory : List HeldItem := List.replicate INVENTORY_SLOTS emptyHeld

/-- clear_inventory: every slot emptied and the quick slot reset. -/
def clear_inventory (a : Actor) : Actor :=
  { a with inventory := emptyInventory, selected_slot := 0 }

def cmd_login (sr : Int) (w : World) (who : Option Nat) (arg : Option String) :
    World × List Out :=
  if who.isSome then (w, [(Dest.toSelf, MsgTag.alreadyLoggedIn)])
  else
    match arg with
    | Option.none => (w, [(Dest.toSelf, MsgTag.usageLogin)])
    | some nm =>
      if nm = "" then (w, [(Dest.toSelf, MsgTag.usageLogin)])
      else
        let a : Actor := ⟨nm, effStart sr, 5, false, emptyInventory, 0⟩
        ({ w with actors := w.actors ++ [a] },
         [(Dest.toSelf, MsgTag.spawnedBanner), (Dest.toSelf, MsgTag.stageIs),
          (Dest.toSelf, MsgTag.commandsAvail), (Dest.toSelf, MsgTag.questGoal),
          (Dest.toSelf, MsgTag.lookOut)])

def cmd_look (w : World) (who : Option Nat) : World × List Out :=
  match getActor w who with
  | Option.none => (w, [])
  | some _ => (w, [(Dest.toSelf, MsgTag.lookOut)])

def cmd_go (w : World) (who : Option Nat) (arg : Option String) :
    World × List Out :=
  match getActor w who with
  | Option.none => (w, [(Dest.toSelf, MsgTag.loginFirst)])
  | some ip =>
    match parse_dir arg with
    | Option.none => (w, [(Dest.toSelf, MsgTag.usageGo)])
    | some d =>
      let dst := room_exit ip.2.room_id d
      if dst < 0 then (w, [(Dest.toSelf, MsgTag.noExit)])
      else
        ({ w with actors := w.actors.set ip.1 { ip.2 with room_id := dst.toNat } },
         [(Dest.toSelf, MsgTag.movedTo dst.toNat), (Dest.toSelf, MsgTag.lookOut)])

def cmd_say (w : World) (who : Option Nat) : World × List Out :=
  match getActor w who with
  | Option.none => (w, [(Dest.toSelf, MsgTag.loginFirst)])
  | some ip => (w, [(Dest.toRoom ip.2.room_id, MsgTag.saySpoken)])

def cmd_inventory (w : World) (who : Option Nat) : World × List Out :=
  match getActor w who with
  | Option.none => (w, [(Dest.toSelf, MsgTag.loginFirst)])
  | some _ => (w, [(Dest.toSelf, MsgTag.invOut)])

def cmd_state (w : World) (who : Option Nat) : World × List Out :=
  match getActor w who with
  | Option.none => (w, [(Dest.toSelf, MsgTag.loginFirst)])
  | some _ => (w, [(Dest.toSelf, MsgTag.stateOut)])

/-- The token cmd_grab matches: the argument, defaulting to the
string 1 when absent or empty. -/
def grab_token (arg : Option String) : String :=
  match arg with
  | Option.none => "1"
  | some a => if a = "" then "1" else a

def cmd_grab (w : World) (who : Option Nat) (arg : Option String) :
    World × List Out :=
  match getActor w who with
  | Option.none => (w, [(Dest.toSelf, MsgTag.loginFirst)])
  | some ip =>
    let l := roomObjs w ip.2.room_id
    if room_object_count l = 0 then (w, [(Dest.toSelf, MsgTag.nothingToGrab)])
    else
      match room_match_object l (grab_token arg) with
      | Option.none => (w, [(Dest.toSelf, MsgTag.noSuchItem)])
      | some slot =>
        let obj := l.getD slot emptyObj
        if obj.type = ItemType.babyDaemon then (w, [(Dest.toSelf, MsgTag.daemonScoots)])
        else
          match inventory_first_free ip.2 with
          | Option.none => (w, [(Dest.toSelf, MsgTag.invFull)])
          | some inv =>
            let p1 := { ip.2 with
                        inventory := ip.2.inventory.set inv ⟨obj.type, obj.flags⟩,
                        selected_slot := inv }
            let w1 := setRoomObjs { w with actors := w.actors.set ip.1 p1 }
                        ip.2.room_id (l.set slot emptyObj)
            (w1, [(Dest.toSelf, MsgTag.stashed obj.type inv)])

def cmd_analyze (w : World) (who : Option Nat) (arg : Option String) :
    World × List Out :=
  match getActor w who with
  | Option.none => (w, [(Dest.toSelf, MsgTag.loginFirst)])
  | some ip =>
    let slot := resolve_slot ip.2 arg
    if slot < 0 ∨ (INVENTORY_SLOTS : Int) ≤ slot then
      (w, [(Dest.toSelf, MsgTag.usageAnalyze)])
    else
      let si := slot.toNat
      let it := ip.2.inventory.getD si emptyHeld
      if it.type = ItemType.none then (w, [(Dest.toSelf, MsgTag.slotEmpty si)])
      else
        if it.flags.mutated then
          let it2 : HeldItem := ⟨ItemType.junkData, ⟨true, false⟩⟩
          let p1 := { ip.2 with inventory := ip.2.inventory.set si it2 }
          ({ w with actors := w.actors.set ip.1 p1 },
           [(Dest.toSelf, MsgTag.analyzeCorrupted)])
        else
          let it1 := { it with flags := { it.flags with identified := true } }
          let p1 := { ip.2 with inventory := ip.2.inventory.set si it1 }
          let w1 := { w with actors := w.actors.set ip.1 p1 }
          if item_is_junk it.type then (w1, [(Dest.toSelf, MsgTag.analyzeJunk)])
          else (w1, [(Dest.toSelf, MsgTag.analyzeTasty)])

def cmd_feed (w : World) (who : Option Nat) (arg : Option String) :
    World × List Out :=
  match getActor w who with
  | Option.none => (w, [(Dest.toSelf, MsgTag.loginFirst)])
  | some ip =>
    if ip.2.room_id ≠ ROOM_NURSERY then (w, [(Dest.toSelf, MsgTag.feedElsewhere)])
    else
      let slot := resolve_slot ip.2 arg
      if slot < 0 ∨ (INVENTORY_SLOTS : Int) ≤ slot then
        (w, [(Dest.toSelf, MsgTag.usageFeed)])
      else
        let si := slot.toNat
        let it := ip.2.inventory.getD si emptyHeld
        if it.type = ItemType.none then (w, [(Dest.toSelf, MsgTag.slotEmpty si)])
        else if item_is_feed it.type then
          let hunger_drop : Int := if it.type = ItemType.cpuSlice then 4 else 3
          let mood_boost : Int := if it.type = ItemType.ioToken then 3 else 2
          let s0 := adjust_mood mood_boost (adjust_hunger (-hunger_drop) w.sys)
          let s1 := adjust_stability 2 (adjust_trust 1 s0)
          let s2 := if it.type = ItemType.ramChunk then adjust_stability 1 s1 else s1
          let p1 := { ip.2 with inventory := ip.2.inventory.set si emptyHeld }
          ({ w with sys := recompute_monster_state s2, actors := w.actors.set ip.1 p1 },
           [(Dest.toRoom ROOM_NURSERY, MsgTag.monsterPurrs)])
        else if item_is_junk it.type then
          let s0 := adjust_trust (-2) (adjust_mood (-3) (adjust_hunger 1 w.sys))
          let s1 := adjust_junk 2 (adjust_stability (-5) s0)
          let p1 := { ip.2 with inventory := ip.2.inventory.set si emptyHeld }
          ({ w with sys := recompute_monster_state s1, actors := w.actors.set ip.1 p1 },
           [(Dest.toRoom ROOM_NURSERY, MsgTag.monsterGlitchesFeed)])
        else (w, [(Dest.toSelf, MsgTag.monsterRefuses)])

def cmd_clean (w : World) (who : Option Nat) (arg : Option String) :
    World × List Out :=
  match getActor w who with
  | Option.none => (w, [(Dest.toSelf, MsgTag.loginFirst)])
  | some ip =>
    let slot := resolve_slot ip.2 arg
    if slot < 0 ∨ (INVENTORY_SLOTS : Int) ≤ slot then
      (w, [(Dest.toSelf, MsgTag.usageClean)])
    else
      let si := slot.toNat
      let it := ip.2.inventory.getD si emptyHeld
      if it.type = ItemType.none then (w, [(Dest.toSelf, MsgTag.slotEmpty si)])
      else
        let in_fields := ip.2.room_id = ROOM_FIELDS
        let p1 := { ip.2 with inventory := ip.2.inventory.set si emptyHeld }
        if item_is_junk it.type then
          let s1 := adjust_junk (if in_fields then -3 else -1) w.sys
          let s2 := adjust_mood (if in_fields then 1 else 0) s1
          let s3 := if in_fields then adjust_stability 1 s2 else s2
          ({ w with sys := recompute_monster_state s3, actors := w.actors.set ip.1 p1 },
           [(Dest.toSelf, MsgTag.junkScrubbed)])
        else
          ({ w with actors := w.actors.set ip.1 p1 },
           [(Dest.toSelf, MsgTag.recycled it.type)])

def cmd_rescue (w : World) (who : Option Nat) : World × List Out :=
  match getActor w who with
  | Option.none => (w, [(Dest.toSelf, MsgTag.loginFirst)])
  | some ip =>
    if ip.2.room_id ≠ ROOM_FIELDS then (w, [(Dest.toSelf, MsgTag.rescueElsewhere)])
    else
      let l := roomObjs w ROOM_FIELDS
      match first_daemon_idx l with
      | some i2 =>
        let w1 := setRoomObjs w ROOM_FIELDS (l.set i2 emptyObj)
        let s1 := adjust_stability 3 (adjust_mood 2 (adjust_trust 2 w1.sys))
        let s2a := { s1 with daemon_lost := false }
        let h1 := { s2a.helper with rescue_counter := min (s2a.helper.rescue_counter + 1) 5 }
        let s2 := { s2a with helper := h1 }
        ({ w1 with sys := recompute_monster_state s2 },
         [(Dest.toSelf, MsgTag.rescueDone)])
      | Option.none =>
        if w.sys.daemon_lost then
          let s0 := { w.sys with daemon_lost := false }
          let s1 := adjust_stability 2 (adjust_mood 1 (adjust_trust 1 s0))
          let h1 := { s1.helper with rescue_counter := min (s1.helper.rescue_counter + 1) 5 }
          let s2 := { s1 with helper := h1 }
          ({ w with sys := recompute_monster_state s2 },
           [(Dest.toSelf, MsgTag.rescueDone)])
        else (w, [(Dest.toSelf, MsgTag.nothingToRescue)])

def cmd_clear (w : World) (who : Option Nat) : World × List Out :=
  match getActor w who with
  | Option.none => (w, [(Dest.toSelf, MsgTag.loginFirst)])
  | some ip =>
    if ip.2.room_id ≠ ROOM_FIELDS then (w, [(Dest.toSelf, MsgTag.clearElsewhere)])
    else
      let l := roomObjs w ROOM_FIELDS
      let cleared := l.countP (fun o => o.type == ItemType.junkData)
      let w1 := setRoomObjs w ROOM_FIELDS
        (l.map (fun o => if o.type = ItemType.junkData then emptyObj else o))
      if 0 < cleared then
        let s1 := adjust_junk (-((cleared : Int) * 2)) w1.sys
        let s2 := adjust_mood 1 (adjust_stability 1 s1)
        ({ w1 with sys := recompute_monster_state s2 },
         [(Dest.toSelf, MsgTag.ventedJunk cleared)])
      else (w1, [(Dest.toSelf, MsgTag.fieldsTidy)])

def cmd_pet (w : World) (who : Option Nat) : World × List Out :=
  match getActor w who with
  | Option.none => (w, [(Dest.toSelf, MsgTag.loginFirst)])
  | some ip =>
    if ip.2.room_id ≠ ROOM_NURSERY then (w, [(Dest.toSelf, MsgTag.petElsewhere)])
    else
      let s1 := recompute_monster_state (adjust_trust 1 (adjust_mood 2 w.sys))
      ({ w with sys := s1 }, [(Dest.toRoom ROOM_NURSERY, MsgTag.petMsg)])

def cmd_debug (w : World) (who : Option Nat) : World × List Out :=
  match getActor w who with
  | Option.none => (w, [(Dest.toSelf, MsgTag.loginFirst)])
  | some ip =>
    if ip.2.room_id ≠ ROOM_NURSERY then (w, [(Dest.toSelf, MsgTag.debugElsewhere)])
    else
      let s1 := adjust_stability 1 (adjust_mood 1 (adjust_junk (-1) w.sys))
      let s2 := if s1.monster_state = MoodState.glitching then adjust_mood 1 s1 else s1
      ({ w with sys := recompute_monster_state s2 },
       [(Dest.toRoom ROOM_NURSERY, MsgTag.debugMsg)])

def cmd_sing (w : World) (who : Option Nat) : World × List Out :=
  match getActor w who with
  | Option.none => (w, [(Dest.toSelf, MsgTag.loginFirst)])
  | some ip =>
    if ip.2.room_id ≠ ROOM_NURSERY then (w, [(Dest.toSelf, MsgTag.singElsewhere)])
    else
      let s1 := recompute_monster_state (adjust_stability 1 (adjust_trust 1 (adjust_mood 3 w.sys)))
      ({ w with sys := s1 }, [(Dest.toRoom ROOM_NURSERY, MsgTag.singMsg)])

def cmd_reset (sr : Int) (w : World) (who : Option Nat) : World × List Out :=
  match getActor w who with
  | Option.none => (w, [(Dest.toSelf, MsgTag.loginFirst)])
  | some _ =>
    if !w.sys.crashed then (w, [(Dest.toSelf, MsgTag.stillRunning)])
    else
      let w1 := game_reset_state w
      let relocate := fun (a : Actor) => { clear_inventory a with room_id := effStart sr }
      let w2 := { w1 with actors := w1.actors.map relocate }
      (w2,
       [(Dest.toAll, MsgTag.questGoal), (Dest.toAll, MsgTag.commandsAvail),
        (Dest.toAll, MsgTag.resetRestores), (Dest.toSelf, MsgTag.resetComplete)])

/-- The static command_gates table (display strings dropped). -/
def command_gates : List (String × Stage) :=
  [("grab", Stage.growing), ("analyze", Stage.growing), ("feed", Stage.growing),
   ("clean", Stage.mature), ("rescue", Stage.mature), ("clear", Stage.mature),
   ("pet", Stage.elder), ("debug", Stage.elder), ("sing", Stage.elder),
   ("reset", Stage.retired)]

/-- The strcmp scan of find_gate over the gate table. -/
def find_gate_in : List (String × Stage) → String → Option (String × Stage)
| [], _ => Option.none
| g :: rest, cmd => if g.1 = cmd then some g else find_gate_in rest cmd

def find_gate (cmd : String) : Option (String × Stage) :=
  find_gate_in command_gates cmd

/-- Gate lookup falling back to the ungated stage. -/
def required_stage (cmd : String) : Stage :=
  ((find_gate cmd).map Prod.snd).getD Stage.hatchling

/-- command_permitted: current stage at or above the gate stage. -/
def command_permitted (w : World) (cmd : String) : Bool :=
  decide ((required_stage cmd).toNat ≤ w.sys.lifecycle.toNat)

/-- The tip emitted by command_permitted on rejection, naming the required
and the current stage. -/
def gate_tip (w : World) (cmd : String) : Out :=
  (Dest.toSelf, MsgTag.tipGate (required_stage cmd) w.sys.lifecycle)

/-- Run one gated dispatch arm of monster_game_handle_line. -/
def run_gated (w : World) (cmd : String) (k : World → World × List Out) :
    World × List Out :=
  if command_permitted w cmd then k w else (w, [gate_tip w cmd])

/-- monster_game_handle_line after verb/argument splitting: the dispatch
chain with the per-verb stage-gate checks. -/
def handle (sr : Int) (w : World) (who : Option Nat) (verb : String)
    (arg : Option String) : World × List Out :=
  if verb = "login" then cmd_login sr w who arg
  else if verb = "look" then cmd_look w who
  else if verb = "go" then cmd_go w who arg
  else if verb = "grab" then run_gated w "grab" (fun w => cmd_grab w who arg)
  else if verb = "analyze" then run_gated w "analyze" (fun w => cmd_analyze w who arg)
  else if verb = "feed" then run_gated w "feed" (fun w => cmd_feed w who arg)
  else if verb = "clean" then run_gated w "clean" (fun w => cmd_clean w who arg)
  else if verb = "rescue" then run_gated w "rescue" (fun w => cmd_rescue w who)
  else if verb = "clear" then run_gated w "clear" (fun w => cmd_clear w who)
  else if verb = "pet" then run_gated w "pet" (fun w => cmd_pet w who)
  else if verb = "debug" then run_gated w "debug" (fun w => cmd_debug w who)
  else if verb = "sing" then run_gated w "sing" (fun w => cmd_sing w who)
  else if verb = "reset" then run_gated w "reset" (fun w => cmd_reset sr w who)
  else if verb = "inventory" then cmd_inventory w who
  else if verb = "state" then cmd_state w who
  else if verb = "say" then cmd_say w who
  else if verb = "quit" then (w, [(Dest.toSelf, MsgTag.goodbye)])
  else (w, [(Dest.toSelf, MsgTag.unknownCmd)])

/- ---- Reachability ------------------------------------------------------ -/

/-- One world transition: a tick under any RNG oracle, or one command line
from any session under any start_room configuration. -/
inductive Step : World → World → Prop
| tickStep (w : World) (g : Rng) : Step w (monster_game_tick w g).1
| cmdStep (w : World) (sr : Int) (who : Option Nat) (verb : String)
    (arg : Option String) : Step w (handle sr w who verb arg).1

/-- Worlds reachable from the freshly initialized module by ticks and
command lines. -/
inductive Reachable : World → Prop
| init : Reachable initWorld
| step (w w2 : World) : Reachable w → Step w w2 → Reachable w2

/- ---- Specification predicates and sample inputs ------------------------ -/

/-- The documented closed intervals of the five bounded scalars. -/
def InBounds (s : SystemState) : Prop :=
  0 ≤ s.stability ∧ s.stability ≤ 100 ∧
  0 ≤ s.hunger ∧ s.hunger ≤ 10 ∧
  -10 ≤ s.mood ∧ s.mood ≤ 10 ∧
  0 ≤ s.trust ∧ s.trust ≤ 10 ∧
  0 ≤ s.junk_load ∧ s.junk_load ≤ 50

instance (s : SystemState) : Decidable (InBounds s) := by
  unfold InBounds; infer_instance

/-- The five crash conditions with their reasons, in the documented
priority order, as a condition list for a first-match lookup. -/
def crash_conditions (s : SystemState) : List (Bool × CrashReason) :=
  [(decide (s.stability ≤ 0), CrashReason.stabilityExhausted),
   (decide (s.mood ≤ -10), CrashReason.moodMeltdown),
   (decide (s.trust ≤ 0), CrashReason.trustDrained),
   (decide (10 ≤ s.hunger), CrashReason.hungerOverflow),
   (decide (25 ≤ s.junk_load), CrashReason.junkBackpressure)]

/-- Baby-daemon objects in one slot array. -/
def room_daemons (l : List RoomObject) : Nat :=
  l.countP (fun o => o.type == ItemType.babyDaemon)

/-- Baby-daemon objects across all rooms. -/
def daemon_count (w : World) : Nat :=
  (w.objects.map room_daemons).sum

/-- Occupied inventory slots of one actor. -/
def inv_count (a : Actor) : Nat :=
  a.inventory.countP (fun it => !(it.type == ItemType.none))

/-- Items in existence: occupied room slots plus occupied inventory
slots, across the whole world. -/
def total_items (w : World) : Nat :=
  (w.objects.map room_object_count).sum + (w.actors.map inv_count).sum

/-- One stage rule is met by the current tick and stability. -/
def rule_ok (s : SystemState) (r : StageRule) : Prop :=
  r.min_tick ≤ s.tick ∧ r.min_stability ≤ s.stability

/-- The all-zero RNG oracle, used for concrete evaluations. -/
def g0 : Rng := fun _ => 0

/-- A sample actor. -/
def actorA : Actor := ⟨"al", ROOM_NURSERY, 5, false, emptyInventory, 0⟩

/-- A crashed world still at stage Hatchling, with one logged-in actor. -/
def wCrashed : World :=
  { sys := { resetSys with crashed := true, tick := 5 },
    objects := initObjects, actors := [actorA] }

/-- A crashed world whose lifecycle has reached Retired, with one
logged-in actor holding an item away from the start room. -/
def wCrashedRetired : World :=
  { sys := { resetSys with crashed := true, tick := 900, lifecycle := Stage.retired },
    objects := [[⟨ItemType.junkData, 2, ⟨false, false⟩⟩, emptyObj, emptyObj, emptyObj],
                List.replicate 4 emptyObj, List.replicate 4 emptyObj],
    actors := [⟨"al", ROOM_FIELDS, 5, false,
                [⟨ItemType.ramChunk, ⟨false, false⟩⟩, emptyHeld, emptyHeld], 2⟩] }

/-- A world with hunger already zero and an actor in the Nursery holding
a plain RAM chunk in slot 1. -/
def wFeedZero : World :=
  { sys := { resetSys with hunger := 0 },
    objects := initObjects,
    actors := [⟨"al", ROOM_NURSERY, 5, false,
                [⟨ItemType.ramChunk, ⟨false, false⟩⟩, emptyHeld, emptyHeld], 0⟩] }

/-- A fresh-scalars world with an actor in the Nursery holding a CPU
slice in slot 1. -/
def wFeedSample : World :=
  { sys := resetSys,
    objects := initObjects,
    actors := [⟨"al", ROOM_NURSERY, 5, false,
                [⟨ItemType.cpuSlice, ⟨true, false⟩⟩, emptyHeld, emptyHeld], 0⟩] }

/-- A non-crashed world at stage Retired with one logged-in actor. -/
def wRetiredOk : World :=
  { sys := { resetSys with lifecycle := Stage.retired, tick := 800 },
    objects := initObjects, actors := [actorA] }

/-- A world with a RAM chunk in the first Nursery slot and one actor
there with an empty inventory. -/
def wGrabSample : World :=
  { sys := resetSys,
    objects := [[⟨ItemType.ramChunk, 3, ⟨false, false⟩⟩, emptyObj, emptyObj, emptyObj],
                List.replicate 4 emptyObj, List.replicate 4 emptyObj],
    actors := [actorA] }

/-- The held item cmd_grab stores on success: the kind and flags of the
matched room object. -/
def grab_held (w : World) (a : Actor) (slot : Nat) : HeldItem :=
  ⟨((roomObjs w a.room_id).getD slot emptyObj).type,
   ((roomObjs w a.room_id).getD slot emptyObj).flags⟩

/-- The grabbing actor after a successful grab: the item in the first
free slot, which becomes the selected slot. -/
def grab_p1 (w : World) (a : Actor) (slot inv : Nat) : Actor :=
  { a with inventory := a.inventory.set inv (grab_held w a slot), selected_slot := inv }

/-- The world cmd_grab produces on success: the matched room slot
cleared and the actor updated. -/
def grab_moved (w : World) (i : Nat) (a : Actor) (slot inv : Nat) : World :=
  setRoomObjs { w with actors := w.actors.set i (grab_p1 w a slot inv) } a.room_id
    ((roomObjs w a.room_id).set slot emptyObj)

/-- The world cmd_reset produces from a crashed world: fresh system
state, cleared rooms, every actor with a cleared inventory relocated to
the effective start room. -/
def world_after_reset (sr : Int) (w : World) : World :=
  { sys := resetSys, objects := initObjects,
    actors := w.actors.map (fun a => { clear_inventory a with room_id := effStart sr }) }

/-- Admissible system-state evolutions: the closure of the primitive
mutations every tick phase and every non-reset command handler performs.
Used to factor the preservation arguments for the crashed flag, the
lifecycle stage and the scalar bounds. -/
inductive SysEvo : SystemState → SystemState → Prop
| refl (s : SystemState) : SysEvo s s
| stab (d : Int) (s t : SystemState) : SysEvo s t → SysEvo s (adjust_stability d t)
| hung (d : Int) (s t : SystemState) : SysEvo s t → SysEvo s (adjust_hunger d t)
| mood (d : Int) (s t : SystemState) : SysEvo s t → SysEvo s (adjust_mood d t)
| trust (d : Int) (s t : SystemState) : SysEvo s t → SysEvo s (adjust_trust d t)
| junk (d : Int) (s t : SystemState) : SysEvo s t → SysEvo s (adjust_junk d t)
| recomp (s t : SystemState) : SysEvo s t → SysEvo s (recompute_monster_state t)
| daemon (b : Bool) (s t : SystemState) : SysEvo s t → SysEvo s { t with daemon_lost := b }
| helper (h : HelperState) (s t : SystemState) : SysEvo s t → SysEvo s { t with helper := h }
| tickSet (n : Nat) (s t : SystemState) : SysEvo s t → SysEvo s { t with tick := n }

/-- The invariant of claim C10: at most one stray creature exists, and
while one exists the stray-loose flag is set. -/
def DaemonInv (w : World) : Prop :=
  daemon_count w ≤ 1 ∧ (1 ≤ daemon_count w → w.sys.daemon_lost = true)

/-- The inductive strengthening of the C10 invariant: exactly the three
rooms of the module exist, strays only ever sit in the fields (the only
room spawn_daemon targets), at most one is there, and while one is there
the stray-loose flag is set. -/
def DaemonAux (w : World) : Prop :=
  w.objects.length = 3 ∧
  room_daemons (roomObjs w ROOM_NURSERY) = 0 ∧
  room_daemons (roomObjs w ROOM_BUFFET) = 0 ∧
  room_daemons (roomObjs w ROOM_FIELDS) ≤ 1 ∧
  (1 ≤ room_daemons (roomObjs w ROOM_FIELDS) → w.sys.daemon_lost = true)

/-- One world transition that is not a reset command line. -/
inductive StepNR : World → World → Prop
| tickStep (w : World) (g : Rng) : StepNR w (monster_game_tick w g).1
| cmdStep (w : World) (sr : Int) (who : Option Nat) (verb : String)
    (arg : Option String) : verb ≠ "reset" → StepNR w (handle sr w who verb arg).1

/- ---- Basic lemmas ------------------------------------------------------ -/

theorem clamp_s32_lb {v lo hi : Int} (h : lo ≤ hi) : lo ≤ clamp_s32 v lo hi := by
  unfold clamp_s32; split_ifs <;> omega

theorem clamp_s32_ub {v lo hi : Int} (h : lo ≤ hi) : clamp_s32 v lo hi ≤ hi := by
  unfold clamp_s32; split_ifs <;> omega

theorem InBounds_adjust_stability (d : Int) {t : SystemState} (h : InBounds t) :
    InBounds (adjust_stability d t) := by
  obtain ⟨a1, a2, a3, a4, a5, a6, a7, a8, a9, a10⟩ := h
  exact ⟨clamp_s32_lb (by decide), clamp_s32_ub (by decide),
    a3, a4, a5, a6, a7, a8, a9, a10⟩

theorem InBounds_adjust_hunger (d : Int) {t : SystemState} (h : InBounds t) :
    InBounds (adjust_hunger d t) := by
  obtain ⟨a1, a2, a3, a4, a5, a6, a7, a8, a9, a10⟩ := h
  exact ⟨a1, a2, clamp_s32_lb (by decide), clamp_s32_ub (by decide),
    a5, a6, a7, a8, a9, a10⟩

theorem InBounds_adjust_mood (d : Int) {t : SystemState} (h : InBounds t) :
    InBounds (adjust_mood d t) := by
  obtain ⟨a1, a2, a3, a4, a5, a6, a7, a8, a9, a10⟩ := h
  exact ⟨a1, a2, a3, a4, clamp_s32_lb (by decide), clamp_s32_ub (by decide),
    a7, a8, a9, a10⟩

theorem InBounds_adjust_trust (d : Int) {t : SystemState} (h : InBounds t) :
    InBounds (adjust_trust d t) := by
  obtain ⟨a1, a2, a3, a4, a5, a6, a7, a8, a9, a10⟩ := h
  exact ⟨a1, a2, a3, a4, a5, a6, clamp_s32_lb (by decide), clamp_s32_ub (by decide),
    a9, a10⟩

theorem InBounds_adjust_junk (d : Int) {t : SystemState} (h : InBounds t) :
    InBounds (adjust_junk d t) := by
  obtain ⟨a1, a2, a3, a4, a5, a6, a7, a8, a9, a10⟩ := h
  exact ⟨a1, a2, a3, a4, a5, a6, a7, a8,
    clamp_s32_lb (by decide), clamp_s32_ub (by decide)⟩

/-- SysEvo preserves the crashed flag, the lifecycle stage, the tick
value up to explicit resetting constructors, and the scalar bounds. -/
theorem sysEvo_fields {s t : SystemState} (h : SysEvo s t) :
    t.crashed = s.crashed ∧ t.lifecycle = s.lifecycle ∧
    (InBounds s → InBounds t) := by
  induction h with
  | refl s => exact ⟨rfl, rfl, id⟩
  | stab d s t _ ih => exact ⟨ih.1, ih.2.1, fun hb => InBounds_adjust_stability d (ih.2.2 hb)⟩
  | hung d s t _ ih => exact ⟨ih.1, ih.2.1, fun hb => InBounds_adjust_hunger d (ih.2.2 hb)⟩
  | mood d s t _ ih => exact ⟨ih.1, ih.2.1, fun hb => InBounds_adjust_mood d (ih.2.2 hb)⟩
  | trust d s t _ ih => exact ⟨ih.1, ih.2.1, fun hb => InBounds_adjust_trust d (ih.2.2 hb)⟩
  | junk d s t _ ih => exact ⟨ih.1, ih.2.1, fun hb => InBounds_adjust_junk d (ih.2.2 hb)⟩
  | recomp s t _ ih => exact ⟨ih.1, ih.2.1, ih.2.2⟩
  | daemon b s t _ ih => exact ⟨ih.1, ih.2.1, ih.2.2⟩
  | helper hh s t _ ih => exact ⟨ih.1, ih.2.1, ih.2.2⟩
  | tickSet n s t _ ih => exact ⟨ih.1, ih.2.1, ih.2.2⟩

/-- Composition of admissible evolutions. -/
theorem sysEvo_trans {s t u : SystemState} (h1 : SysEvo s t) (h2 : SysEvo t u) :
    SysEvo s u := by
  induction h2 with
  | refl _ => exact h1
  | stab d a b _ ih => exact SysEvo.stab d _ _ (ih h1)
  | hung d a b _ ih => exact SysEvo.hung d _ _ (ih h1)
  | mood d a b _ ih => exact SysEvo.mood d _ _ (ih h1)
  | trust d a b _ ih => exact SysEvo.trust d _ _ (ih h1)
  | junk d a b _ ih => exact SysEvo.junk d _ _ (ih h1)
  | recomp a b _ ih => exact SysEvo.recomp _ _ (ih h1)
  | daemon b a c _ ih => exact SysEvo.daemon b _ _ (ih h1)
  | helper hh a b _ ih => exact SysEvo.helper hh _ _ (ih h1)
  | tickSet n a b _ ih => exact SysEvo.tickSet n _ _ (ih h1)

/- ---- Claim C7 ---------------------------------------------------------- -/

/-- C7: the derived monster mood is a stateless classifier of the current
scalars: for every combination of mood, junk load and hunger the
recompute yields Glitching when mood is at most minus 4 or junk load at
least 12; otherwise Hungry when hunger is at least 7; otherwise Sleeping
when hunger is at most 1 and mood at least 2; otherwise Overfed when
hunger is at most 1; otherwise Content; with no dependence on the
previously stored mood state. -/
theorem C7_mood_stateless_classifier (s t : SystemState)
    (hm : s.mood = t.mood) (hj : s.junk_load = t.junk_load)
    (hh : s.hunger = t.hunger) :
    (recompute_monster_state s).monster_state = (recompute_monster_state t).monster_state ∧
    ((s.mood ≤ -4 ∨ 12 ≤ s.junk_load) →
      (recompute_monster_state s).monster_state = MoodState.glitching) ∧
    (¬(s.mood ≤ -4 ∨ 12 ≤ s.junk_load) → 7 ≤ s.hunger →
      (recompute_monster_state s).monster_state = MoodState.hungry) ∧
    (¬(s.mood ≤ -4 ∨ 12 ≤ s.junk_load) → ¬(7 ≤ s.hunger) →
      s.hunger ≤ 1 → 2 ≤ s.mood →
      (recompute_monster_state s).monster_state = MoodState.sleeping) ∧
    (¬(s.mood ≤ -4 ∨ 12 ≤ s.junk_load) → ¬(7 ≤ s.hunger) →
      s.hunger ≤ 1 → ¬(2 ≤ s.mood) →
      (recompute_monster_state s).monster_state = MoodState.overfed) ∧
    (¬(s.mood ≤ -4 ∨ 12 ≤ s.junk_load) → ¬(7 ≤ s.hunger) → ¬(s.hunger ≤ 1) →
      (recompute_monster_state s).monster_state = MoodState.content) := by
  refine ⟨?_, ?_, ?_, ?_, ?_, ?_⟩
  · show (if s.mood ≤ -4 ∨ 12 ≤ s.junk_load then MoodState.glitching
      else if 7 ≤ s.hunger then MoodState.hungry
      else if s.hunger ≤ 1 ∧ 2 ≤ s.mood then MoodState.sleeping
      else if s.hunger ≤ 1 then MoodState.overfed
      else MoodState.content) =
      (if t.mood ≤ -4 ∨ 12 ≤ t.junk_load then MoodState.glitching
      else if 7 ≤ t.hunger then MoodState.hungry
      else if t.hunger ≤ 1 ∧ 2 ≤ t.mood then MoodState.sleeping
      else if t.hunger ≤ 1 then MoodState.overfed
      else MoodState.content)
    rw [hm, hj, hh]
  · intro h1
    show (if s.mood ≤ -4 ∨ 12 ≤ s.junk_load then MoodState.glitching
      else if 7 ≤ s.hunger then MoodState.hungry
      else if s.hunger ≤ 1 ∧ 2 ≤ s.mood then MoodState.sleeping
      else if s.hunger ≤ 1 then MoodState.overfed
      else MoodState.content) = MoodState.glitching
    rw [if_pos h1]
  · intro h1 h2
    show (if s.mood ≤ -4 ∨ 12 ≤ s.junk_load then MoodState.glitching
      else if 7 ≤ s.hunger then MoodState.hungry
      else if s.hunger ≤ 1 ∧ 2 ≤ s.mood then MoodState.sleeping
      else if s.hunger ≤ 1 then MoodState.overfed
      else MoodState.content) = MoodState.hungry
    rw [if_neg h1, if_pos h2]
  · intro h1 h2 h3 h4
    show (if s.mood ≤ -4 ∨ 12 ≤ s.junk_load then MoodState.glitching
      else if 7 ≤ s.hunger then MoodState.hungry
      else if s.hunger ≤ 1 ∧ 2 ≤ s.mood then MoodState.sleeping
      else if s.hunger ≤ 1 then MoodState.overfed
      else MoodState.content) = MoodState.sleeping
    rw [if_neg h1, if_neg h2, if_pos ⟨h3, h4⟩]
  · intro h1 h2 h3 h4
    show (if s.mood ≤ -4 ∨ 12 ≤ s.junk_load then MoodState.glitching
      else if 7 ≤ s.hunger then MoodState.hungry
      else if s.hunger ≤ 1 ∧ 2 ≤ s.mood then MoodState.sleeping
      else if s.hunger ≤ 1 then MoodState.overfed
      else MoodState.content) = MoodState.overfed
    rw [if_neg h1, if_neg h2, if_neg (fun hc => h4 hc.2), if_pos h3]
  · intro h1 h2 h3
    show (if s.mood ≤ -4 ∨ 12 ≤ s.junk_load then MoodState.glitching
      else if 7 ≤ s.hunger then MoodState.hungry
      else if s.hunger ≤ 1 ∧ 2 ≤ s.mood then MoodState.sleeping
      else if s.hunger ≤ 1 then MoodState.overfed
      else MoodState.content) = MoodState.content
    rw [if_neg h1, if_neg h2, if_neg (fun hc => h3 hc.1), if_neg h3]

/-- Witness for C7 at the documented fresh scalars: hunger 3, mood 0,
junk 0 classify as Content. -/
theorem C7_witness :
    (recompute_monster_state resetSys).monster_state = MoodState.content :=
  (C7_mood_stateless_classifier resetSys resetSys rfl rfl rfl).2.2.2.2.2
    (by decide) (by decide) (by decide)

/- ---- Structural lemmas about the world operations ---------------------- -/

theorem setRoomObjs_sys (w : World) (rid : Nat) (l : List RoomObject) :
    (setRoomObjs w rid l).sys = w.sys := rfl

theorem setRoomObjs_actors (w : World) (rid : Nat) (l : List RoomObject) :
    (setRoomObjs w rid l).actors = w.actors := rfl

theorem setSlotMutated_sys (w : World) (rid i : Nat) :
    (setSlotMutated w rid i).sys = w.sys := rfl

theorem room_add_object_some_sys {w : World} {rid : Nat} {ty : ItemType}
    {ttl : Nat} {p : World × Nat} (h : room_add_object w rid ty ttl = some p) :
    p.1.sys = w.sys := by
  unfold room_add_object at h
  cases h0 : room_first_free_slot (roomObjs w rid) with
  | none => rw [h0] at h; exact absurd h (by simp)
  | some i =>
    rw [h0] at h
    simp only [Option.some.injEq] at h
    rw [← h]
    rfl

theorem room_add_object_some_actors {w : World} {rid : Nat} {ty : ItemType}
    {ttl : Nat} {p : World × Nat} (h : room_add_object w rid ty ttl = some p) :
    p.1.actors = w.actors := by
  unfold room_add_object at h
  cases h0 : room_first_free_slot (roomObjs w rid) with
  | none => rw [h0] at h; exact absurd h (by simp)
  | some i =>
    rw [h0] at h
    simp only [Option.some.injEq] at h
    rw [← h]
    rfl

theorem room_decay_objects_sys (w : World) (rid : Nat) :
    (room_decay_objects w rid).sys = w.sys := rfl

theorem cleanup_phase_sys (w : World) : (cleanup_phase w).sys = w.sys := rfl

theorem cleanup_phase_actors (w : World) : (cleanup_phase w).actors = w.actors := rfl

/- ---- SysEvo facts for the tick phases ---------------------------------- -/

theorem sysEvo_spawn_buffet (w : World) (g : Rng) :
    (spawn_buffet_resource w g).1.sys = w.sys := by
  unfold spawn_buffet_resource
  split_ifs with h0
  · rfl
  · simp only []
    split
    · rfl
    · rename_i wi heq
      split_ifs with h1 h2
      · show (setSlotMutated wi.1 ROOM_BUFFET wi.2).sys = w.sys
        rw [setSlotMutated_sys]
        exact room_add_object_some_sys heq
      · exact room_add_object_some_sys heq
      · exact room_add_object_some_sys heq

/-- Equal states are trivially related. -/
theorem sysEvo_of_eq {s t : SystemState} (h : s = t) : SysEvo s t := by
  rw [h]; exact SysEvo.refl t

theorem sysEvo_spawn_daemon (w : World) (g : Rng) :
    SysEvo w.sys (spawn_daemon w g).1.sys := by
  unfold spawn_daemon
  split_ifs with h0 h1
  · exact SysEvo.refl _
  · exact SysEvo.refl _
  · simp only []
    split
    · exact SysEvo.refl _
    · rename_i wi heq
      have hs : wi.1.sys = w.sys := room_add_object_some_sys heq
      show SysEvo w.sys { wi.1.sys with daemon_lost := true }
      rw [hs]
      exact SysEvo.daemon true _ _ (SysEvo.refl _)

theorem sysEvo_spawn_phase (w : World) (g : Rng) :
    SysEvo w.sys (spawn_phase w g).1.sys := by
  unfold spawn_phase
  simp only []
  split_ifs with h1 h2 h3
  · exact sysEvo_trans
      (sysEvo_of_eq (sysEvo_spawn_buffet w (rand_percent g).2).symm)
      (sysEvo_spawn_daemon _ _)
  · exact sysEvo_of_eq (sysEvo_spawn_buffet w (rand_percent g).2).symm
  · exact sysEvo_spawn_daemon _ _
  · exact SysEvo.refl _

/-- The two branches of a conditional are both admissible evolutions. -/
theorem sysEvo_ite {c : Prop} [Decidable c] {s a b : SystemState}
    (ha : SysEvo s a) (hb : SysEvo s b) : SysEvo s (if c then a else b) := by
  split_ifs
  · exact ha
  · exact hb

theorem sysEvo_update_phase_sys (s : SystemState) :
    SysEvo s (update_phase_sys s) := by
  unfold update_phase_sys
  simp only []
  apply SysEvo.recomp
  apply sysEvo_ite
  all_goals try apply SysEvo.stab
  all_goals apply sysEvo_ite
  all_goals try apply SysEvo.stab
  all_goals apply sysEvo_ite
  all_goals try apply SysEvo.mood
  all_goals apply sysEvo_ite
  all_goals try apply SysEvo.stab
  all_goals apply SysEvo.hung _ _ _ (SysEvo.refl _)

theorem sysEvo_update_phase (w : World) (g : Rng) :
    SysEvo w.sys (update_phase w g).1.sys := by
  have base : SysEvo w.sys (update_phase_sys w.sys) := sysEvo_update_phase_sys w.sys
  unfold update_phase
  simp only []
  cases hro : room_add_object
      { sys := update_phase_sys w.sys, objects := w.objects, actors := w.actors }
      ROOM_BUFFET ItemType.junkData (rand_range 2 4 (rand_percent g).2).1 with
  | none =>
    simp only [hro]
    split_ifs <;>
      first
      | exact base
      | exact SysEvo.stab 2 _ _ base
  | some wi =>
    have hs : wi.1.sys = update_phase_sys w.sys := room_add_object_some_sys hro
    simp only [hro]
    split_ifs <;>
      first
      | exact base
      | exact SysEvo.stab 2 _ _ base
      | (rw [hs]; exact SysEvo.junk 2 _ _ base)
      | (rw [hs]; exact SysEvo.stab 2 _ _ (SysEvo.junk 2 _ _ base))

theorem sysEvo_event_resource_mutation (w : World) (g : Rng) :
    SysEvo w.sys (event_resource_mutation w g).1.sys := by
  unfold event_resource_mutation
  split
  · exact SysEvo.refl _
  · exact SysEvo.junk 2 _ _ (SysEvo.refl _)

theorem sysEvo_event_mood_swing (w : World) (g : Rng) :
    SysEvo w.sys (event_mood_swing w g).1.sys := by
  unfold event_mood_swing
  exact SysEvo.mood _ _ _ (SysEvo.refl _)

theorem glitch_storm_attempt_sys (w : World) (g : Rng) (n : Nat) :
    (glitch_storm_attempt w g n).1.sys = w.sys := by
  unfold glitch_storm_attempt
  split
  · rfl
  · simp only []
    split
    · rfl
    · rename_i wi heq
      exact room_add_object_some_sys heq

theorem sysEvo_event_glitch_storm (w : World) (g : Rng) :
    SysEvo w.sys (event_glitch_storm w g).1.sys := by
  unfold event_glitch_storm
  simp only []
  split_ifs with h
  · simp only [glitch_storm_attempt_sys]
    exact SysEvo.junk _ _ _ (SysEvo.refl _)
  · simp only [glitch_storm_attempt_sys]
    exact SysEvo.refl _

theorem sysEvo_event_lucky_sync (w : World) (g : Rng) :
    SysEvo w.sys (event_lucky_sync w g).1.sys := by
  unfold event_lucky_sync
  simp only [sysEvo_spawn_buffet]
  exact SysEvo.stab 2 _ _ (SysEvo.hung (-1) _ _ (SysEvo.refl _))

theorem sysEvo_run_event (e : EventId) (w : World) (g : Rng) :
    SysEvo w.sys (run_event e w g).1.sys := by
  cases e
  · exact sysEvo_event_resource_mutation w g
  · exact sysEvo_event_mood_swing w g
  · exact sysEvo_spawn_daemon w g
  · exact sysEvo_event_glitch_storm w g
  · exact sysEvo_event_lucky_sync w g

theorem sysEvo_run_random_event (w : World) (g : Rng) :
    SysEvo w.sys (run_random_event w g).1.sys := by
  unfold run_random_event
  simp only []
  split_ifs with h
  · exact SysEvo.refl _
  · split
    · exact SysEvo.refl _
    · exact sysEvo_run_event _ _ _

theorem sysEvo_helper_phase (w : World) :
    SysEvo w.sys (helper_phase w).sys := by
  unfold helper_phase
  simp only []
  apply SysEvo.recomp
  split_ifs <;> try split
  all_goals
    repeat
      first
      | exact SysEvo.refl _
      | apply SysEvo.stab
      | apply SysEvo.trust
      | apply SysEvo.junk
      | apply SysEvo.daemon
      | apply SysEvo.helper

set_option maxHeartbeats 1000000 in
theorem sysEvo_tick_phases (w : World) (g : Rng) :
    SysEvo w.sys (tick_phases w g).1.sys := by
  unfold tick_phases
  simp only []
  rw [cleanup_phase_sys]
  refine sysEvo_trans ?_ (sysEvo_helper_phase _)
  refine sysEvo_trans ?_ (sysEvo_run_random_event _ _)
  refine sysEvo_trans ?_ (sysEvo_update_phase _ _)
  refine sysEvo_trans ?_ (sysEvo_spawn_phase _ _)
  exact SysEvo.tickSet _ _ _ (SysEvo.refl _)

/- ---- Lifecycle advance and crash report facts -------------------------- -/

theorem advance_loop_eq (s : SystemState) (l : List StageRule) :
    advance_loop s l = { s with lifecycle := (advance_loop s l).lifecycle } := by
  induction l generalizing s with
  | nil => rfl
  | cons r rest ih =>
    simp only [advance_loop]
    split_ifs with h1 h2 h3
    · exact ih s
    · rfl
    · rfl
    · rw [ih { s with lifecycle := r.stage }]

theorem advance_loop_mono (s : SystemState) (l : List StageRule) :
    s.lifecycle.toNat ≤ (advance_loop s l).lifecycle.toNat := by
  induction l generalizing s with
  | nil => exact Nat.le_refl _
  | cons r rest ih =>
    simp only [advance_loop]
    split_ifs with h1 h2 h3
    · exact ih s
    · exact Nat.le_refl _
    · exact Nat.le_refl _
    · have h4 := ih { s with lifecycle := r.stage }
      have h5 : ({ s with lifecycle := r.stage } : SystemState).lifecycle = r.stage := rfl
      rw [h5] at h4
      omega

theorem crash_report_eq (s : SystemState) :
    crash_report s = { s with crashed := true } := by
  unfold crash_report
  split_ifs with h
  · cases s
    simp only [] at h ⊢
    rw [h]
  · rfl

theorem crash_report_crashed (s : SystemState) :
    (crash_report s).crashed = true := by
  rw [crash_report_eq]

theorem maybe_advance_eq (s : SystemState) :
    maybe_advance_lifecycle s =
      { s with lifecycle := (maybe_advance_lifecycle s).lifecycle } :=
  advance_loop_eq s stage_rules

/-- crash_report does not change the scalars the crash conditions read. -/
theorem crash_reason_of_crash_report (s : SystemState) :
    crash_reason_of (crash_report s) = crash_reason_of s := by
  rw [crash_report_eq]
  rfl

/-- The system state after a non-crashed tick: an admissible evolution,
then the lifecycle walk, then the crash report exactly when a crash
condition holds afterwards. -/
theorem tick_sys_shape (w : World) (g : Rng) (h : w.sys.crashed = false) :
    ∃ t : SystemState, SysEvo w.sys t ∧
      ((crash_reason_of (maybe_advance_lifecycle t) = Option.none ∧
        (monster_game_tick w g).1.sys = maybe_advance_lifecycle t) ∨
       ((crash_reason_of (maybe_advance_lifecycle t)).isSome = true ∧
        (monster_game_tick w g).1.sys = crash_report (maybe_advance_lifecycle t))) := by
  unfold monster_game_tick
  rw [if_neg (by simp [h])]
  simp only []
  refine ⟨(tick_phases w g).1.sys, sysEvo_tick_phases w g, ?_⟩
  split
  · rename_i r heq
    right
    exact ⟨by rw [show crash_reason_of (maybe_advance_lifecycle (tick_phases w g).1.sys) = some r from heq]; rfl, rfl⟩
  · rename_i heq
    left
    exact ⟨heq, rfl⟩

/- ---- Claim C1 ---------------------------------------------------------- -/

/-- C1: while crashed, monster_game_tick is a no-op returning true (the
whole world, the RNG stream and every counter unchanged); and in every
state the returned flag is exactly whether the system is crashed after
the tick was applied. -/
theorem C1_crashed_tick_is_noop (w : World) (g : Rng) :
    (w.sys.crashed = true → monster_game_tick w g = (w, g, true)) ∧
    (monster_game_tick w g).2.2 = (monster_game_tick w g).1.sys.crashed := by
  constructor
  · intro h
    unfold monster_game_tick
    rw [if_pos h]
  · unfold monster_game_tick
    split_ifs with h
    · exact h.symm
    · rfl

/-- Witness for C1: a concrete crashed world is left untouched. -/
theorem C1_witness : monster_game_tick wCrashed g0 = (wCrashed, g0, true) :=
  (C1_crashed_tick_is_noop wCrashed g0).1 rfl

/- ---- Claim C4 ---------------------------------------------------------- -/

/-- C4: the crash check evaluates its five conditions in the fixed
priority order (stability exhausted, mood meltdown, trust drained,
hunger overflow, junk backpressure): the computed reason is the first
condition of the priority list that holds, and a non-crashed tick ends
crashed exactly when some condition holds on the post-tick scalars. -/
theorem C4_crash_priority_order :
    (∀ s : SystemState,
      crash_reason_of s = ((crash_conditions s).find? Prod.fst).map Prod.snd) ∧
    (∀ (w : World) (g : Rng), w.sys.crashed = false →
      ((monster_game_tick w g).1.sys.crashed = true ↔
        (crash_reason_of (monster_game_tick w g).1.sys).isSome = true)) := by
  constructor
  · intro s
    unfold crash_reason_of MOOD_MAX HUNGER_MAX
    split_ifs with h1 h2 h3 h4 h5
    · simp [crash_conditions, List.find?, decide_eq_true h1]
    · simp [crash_conditions, List.find?, decide_eq_false h1, decide_eq_true h2]
    · simp [crash_conditions, List.find?, decide_eq_false h1, decide_eq_false h2,
        decide_eq_true h3]
    · simp [crash_conditions, List.find?, decide_eq_false h1, decide_eq_false h2,
        decide_eq_false h3, decide_eq_true h4]
    · simp [crash_conditions, List.find?, decide_eq_false h1, decide_eq_false h2,
        decide_eq_false h3, decide_eq_false h4, decide_eq_true h5]
    · simp [crash_conditions, List.find?, decide_eq_false h1, decide_eq_false h2,
        decide_eq_false h3, decide_eq_false h4, decide_eq_false h5]
  · intro w g h
    obtain ⟨t, hev, hcase⟩ := tick_sys_shape w g h
    rcases hcase with ⟨hnone, heq⟩ | ⟨hsome, heq⟩
    · rw [heq]
      have hc : (maybe_advance_lifecycle t).crashed = false := by
        rw [maybe_advance_eq t]
        show t.crashed = false
        rw [(sysEvo_fields hev).1, h]
      rw [hc, hnone]
      simp
    · rw [heq, crash_report_crashed, crash_reason_of_crash_report, hsome]

/-- Witness for C4 part two at a concrete non-crashed world. -/
theorem C4_witness :
    ((monster_game_tick initWorld g0).1.sys.crashed = true ↔
      (crash_reason_of (monster_game_tick initWorld g0).1.sys).isSome = true) :=
  C4_crash_priority_order.2 initWorld g0 rfl

/- ---- Claim C6 ---------------------------------------------------------- -/

theorem command_permitted_eq_false {w : World} {cmd : String}
    {g : String × Stage} (hg : find_gate cmd = some g)
    (hs : w.sys.lifecycle.toNat < g.2.toNat) :
    command_permitted w cmd = false := by
  unfold command_permitted required_stage
  rw [hg]
  show decide (g.2.toNat ≤ w.sys.lifecycle.toNat) = false
  exact decide_eq_false (by omega)

theorem run_gated_reject {w : World} {cmd : String}
    {k : World → World × List Out} (h : command_permitted w cmd = false) :
    run_gated w cmd k = (w, [gate_tip w cmd]) := by
  unfold run_gated
  rw [if_neg (by simp [h])]

theorem gate_tip_eq {w : World} {cmd : String} {g : String × Stage}
    (hg : find_gate cmd = some g) :
    gate_tip w cmd = (Dest.toSelf, MsgTag.tipGate g.2 w.sys.lifecycle) := by
  unfold gate_tip required_stage
  rw [hg]
  rfl

/-- C6: a command verb listed in the static gate table with a required
stage strictly above the current lifecycle stage is rejected: the
dispatcher returns the world unchanged (system state, rooms, actors,
inventories) and emits only a tip to the invoking session naming the
required and the current stage; in particular grab, gated at Growing, is
rejected this way at Hatchling. -/
theorem C6_gated_below_stage_rejected :
    (∀ (sr : Int) (w : World) (who : Option Nat) (arg : Option String)
       (gp : String × Stage), gp ∈ command_gates →
      w.sys.lifecycle.toNat < gp.2.toNat →
      handle sr w who gp.1 arg =
        (w, [(Dest.toSelf, MsgTag.tipGate gp.2 w.sys.lifecycle)])) ∧
    (∀ (sr : Int) (w : World) (who : Option Nat) (arg : Option String),
      w.sys.lifecycle = Stage.hatchling →
      ("grab", Stage.growing) ∈ command_gates ∧
      handle sr w who "grab" arg =
        (w, [(Dest.toSelf, MsgTag.tipGate Stage.growing Stage.hatchling)])) := by
  have main : ∀ (sr : Int) (w : World) (who : Option Nat) (arg : Option String)
      (gp : String × Stage), gp ∈ command_gates →
      w.sys.lifecycle.toNat < gp.2.toNat →
      handle sr w who gp.1 arg =
        (w, [(Dest.toSelf, MsgTag.tipGate gp.2 w.sys.lifecycle)]) := by
    intro sr w who arg gp hmem hs
    simp only [command_gates] at hmem
    fin_cases hmem
    · have hgx : find_gate "grab" = some ("grab", Stage.growing) := by decide
      rw [show handle sr w who "grab" arg =
            run_gated w "grab" (fun w => cmd_grab w who arg) by simp [handle],
        run_gated_reject (command_permitted_eq_false hgx hs), gate_tip_eq hgx]
    · have hgx : find_gate "analyze" = some ("analyze", Stage.growing) := by decide
      rw [show handle sr w who "analyze" arg =
            run_gated w "analyze" (fun w => cmd_analyze w who arg) by simp [handle],
        run_gated_reject (command_permitted_eq_false hgx hs), gate_tip_eq hgx]
    · have hgx : find_gate "feed" = some ("feed", Stage.growing) := by decide
      rw [show handle sr w who "feed" arg =
            run_gated w "feed" (fun w => cmd_feed w who arg) by simp [handle],
        run_gated_reject (command_permitted_eq_false hgx hs), gate_tip_eq hgx]
    · have hgx : find_gate "clean" = some ("clean", Stage.mature) := by decide
      rw [show handle sr w who "clean" arg =
            run_gated w "clean" (fun w => cmd_clean w who arg) by simp [handle],
        run_gated_reject (command_permitted_eq_false hgx hs), gate_tip_eq hgx]
    · have hgx : find_gate "rescue" = some ("rescue", Stage.mature) := by decide
      rw [show handle sr w who "rescue" arg =
            run_gated w "rescue" (fun w => cmd_rescue w who) by simp [handle],
        run_gated_reject (command_permitted_eq_false hgx hs), gate_tip_eq hgx]
    · have hgx : find_gate "clear" = some ("clear", Stage.mature) := by decide
      rw [show handle sr w who "clear" arg =
            run_gated w "clear" (fun w => cmd_clear w who) by simp [handle],
        run_gated_reject (command_permitted_eq_false hgx hs), gate_tip_eq hgx]
    · have hgx : find_gate "pet" = some ("pet", Stage.elder) := by decide
      rw [show handle sr w who "pet" arg =
            run_gated w "pet" (fun w => cmd_pet w who) by simp [handle],
        run_gated_reject (command_permitted_eq_false hgx hs), gate_tip_eq hgx]
    · have hgx : find_gate "debug" = some ("debug", Stage.elder) := by decide
      rw [show handle sr w who "debug" arg =
            run_gated w "debug" (fun w => cmd_debug w who) by simp [handle],
        run_gated_reject (command_permitted_eq_false hgx hs), gate_tip_eq hgx]
    · have hgx : find_gate "sing" = some ("sing", Stage.elder) := by decide
      rw [show handle sr w who "sing" arg =
            run_gated w "sing" (fun w => cmd_sing w who) by simp [handle],
        run_gated_reject (command_permitted_eq_false hgx hs), gate_tip_eq hgx]
    · have hgx : find_gate "reset" = some ("reset", Stage.retired) := by decide
      rw [show handle sr w who "reset" arg =
            run_gated w "reset" (fun w => cmd_reset sr w who) by simp [handle],
        run_gated_reject (command_permitted_eq_false hgx hs), gate_tip_eq hgx]
  refine ⟨main, ?_⟩
  intro sr w who arg hl
  refine ⟨by simp [command_gates], ?_⟩
  have h2 := main sr w who arg ("grab", Stage.growing) (by simp [command_gates])
    (by rw [hl]; decide)
  rw [hl] at h2
  exact h2


/-- Witness for C6: grab at the fresh Hatchling world is rejected with
the Growing tip. -/
theorem C6_witness :
    handle 0 initWorld (Option.none) "grab" (Option.none) =
      (initWorld, [(Dest.toSelf, MsgTag.tipGate Stage.growing Stage.hatchling)]) :=
  (C6_gated_below_stage_rejected.2 0 initWorld Option.none Option.none rfl).2

/- ---- Dispatch case analysis -------------------------------------------- -/

/-- Every command line lands in exactly one dispatch arm. -/
theorem handle_cases (sr : Int) (w : World) (who : Option Nat) (verb : String)
    (arg : Option String) :
    handle sr w who verb arg = cmd_login sr w who arg ∨
    handle sr w who verb arg = cmd_look w who ∨
    handle sr w who verb arg = cmd_go w who arg ∨
    handle sr w who verb arg = run_gated w "grab" (fun w => cmd_grab w who arg) ∨
    handle sr w who verb arg = run_gated w "analyze" (fun w => cmd_analyze w who arg) ∨
    handle sr w who verb arg = run_gated w "feed" (fun w => cmd_feed w who arg) ∨
    handle sr w who verb arg = run_gated w "clean" (fun w => cmd_clean w who arg) ∨
    handle sr w who verb arg = run_gated w "rescue" (fun w => cmd_rescue w who) ∨
    handle sr w who verb arg = run_gated w "clear" (fun w => cmd_clear w who) ∨
    handle sr w who verb arg = run_gated w "pet" (fun w => cmd_pet w who) ∨
    handle sr w who verb arg = run_gated w "debug" (fun w => cmd_debug w who) ∨
    handle sr w who verb arg = run_gated w "sing" (fun w => cmd_sing w who) ∨
    (verb = "reset" ∧
      handle sr w who verb arg = run_gated w "reset" (fun w => cmd_reset sr w who)) ∨
    handle sr w who verb arg = cmd_inventory w who ∨
    handle sr w who verb arg = cmd_state w who ∨
    handle sr w who verb arg = cmd_say w who ∨
    handle sr w who verb arg = (w, [(Dest.toSelf, MsgTag.goodbye)]) ∨
    handle sr w who verb arg = (w, [(Dest.toSelf, MsgTag.unknownCmd)]) := by
  by_cases h1 : verb = "login"
  · subst h1; exact Or.inl rfl
  by_cases h2 : verb = "look"
  · subst h2; exact Or.inr (Or.inl rfl)
  by_cases h3 : verb = "go"
  · subst h3; exact Or.inr (Or.inr (Or.inl rfl))
  by_cases h4 : verb = "grab"
  · subst h4; exact Or.inr (Or.inr (Or.inr (Or.inl rfl)))
  by_cases h5 : verb = "analyze"
  · subst h5; exact Or.inr (Or.inr (Or.inr (Or.inr (Or.inl rfl))))
  by_cases h6 : verb = "feed"
  · subst h6; exact Or.inr (Or.inr (Or.inr (Or.inr (Or.inr (Or.inl rfl)))))
  by_cases h7 : verb = "clean"
  · subst h7
    exact Or.inr (Or.inr (Or.inr (Or.inr (Or.inr (Or.inr (Or.inl rfl))))))
  by_cases h8 : verb = "rescue"
  · subst h8
    exact Or.inr (Or.inr (Or.inr (Or.inr (Or.inr (Or.inr (Or.inr (Or.inl rfl)))))))
  by_cases h9 : verb = "clear"
  · subst h9
    exact Or.inr (Or.inr (Or.inr (Or.inr (Or.inr (Or.inr (Or.inr (Or.inr
      (Or.inl rfl))))))))
  by_cases h10 : verb = "pet"
  · subst h10
    exact Or.inr (Or.inr (Or.inr (Or.inr (Or.inr (Or.inr (Or.inr (Or.inr
      (Or.inr (Or.inl rfl)))))))))
  by_cases h11 : verb = "debug"
  · subst h11
    exact Or.inr (Or.inr (Or.inr (Or.inr (Or.inr (Or.inr (Or.inr (Or.inr
      (Or.inr (Or.inr (Or.inl rfl))))))))))
  by_cases h12 : verb = "sing"
  · subst h12
    exact Or.inr (Or.inr (Or.inr (Or.inr (Or.inr (Or.inr (Or.inr (Or.inr
      (Or.inr (Or.inr (Or.inr (Or.inl rfl)))))))))))
  by_cases h13 : verb = "reset"
  · subst h13
    exact Or.inr (Or.inr (Or.inr (Or.inr (Or.inr (Or.inr (Or.inr (Or.inr
      (Or.inr (Or.inr (Or.inr (Or.inr (Or.inl ⟨rfl, rfl⟩))))))))))))
  by_cases h14 : verb = "inventory"
  · subst h14
    exact Or.inr (Or.inr (Or.inr (Or.inr (Or.inr (Or.inr (Or.inr (Or.inr
      (Or.inr (Or.inr (Or.inr (Or.inr (Or.inr (Or.inl rfl)))))))))))))
  by_cases h15 : verb = "state"
  · subst h15
    exact Or.inr (Or.inr (Or.inr (Or.inr (Or.inr (Or.inr (Or.inr (Or.inr
      (Or.inr (Or.inr (Or.inr (Or.inr (Or.inr (Or.inr (Or.inl rfl))))))))))))))
  by_cases h16 : verb = "say"
  · subst h16
    exact Or.inr (Or.inr (Or.inr (Or.inr (Or.inr (Or.inr (Or.inr (Or.inr
      (Or.inr (Or.inr (Or.inr (Or.inr (Or.inr (Or.inr (Or.inr
        (Or.inl rfl)))))))))))))))
  by_cases h17 : verb = "quit"
  · subst h17
    refine Or.inr (Or.inr (Or.inr (Or.inr (Or.inr (Or.inr (Or.inr (Or.inr
      (Or.inr (Or.inr (Or.inr (Or.inr (Or.inr (Or.inr (Or.inr (Or.inr
        (Or.inl ?_))))))))))))))))
    rfl
  · refine Or.inr (Or.inr (Or.inr (Or.inr (Or.inr (Or.inr (Or.inr (Or.inr
      (Or.inr (Or.inr (Or.inr (Or.inr (Or.inr (Or.inr (Or.inr (Or.inr
        (Or.inr ?_))))))))))))))))
    unfold handle
    rw [if_neg h1, if_neg h2, if_neg h3, if_neg h4, if_neg h5, if_neg h6,
      if_neg h7, if_neg h8, if_neg h9, if_neg h10, if_neg h11, if_neg h12,
      if_neg h13, if_neg h14, if_neg h15, if_neg h16, if_neg h17]

/- ---- Per-handler system-state facts ------------------------------------ -/

theorem cmd_login_sys (sr : Int) (w : World) (who : Option Nat)
    (arg : Option String) : (cmd_login sr w who arg).1.sys = w.sys := by
  unfold cmd_login
  repeat first | rfl | split | simp only []

theorem cmd_look_sys (w : World) (who : Option Nat) :
    (cmd_look w who).1.sys = w.sys := by
  unfold cmd_look
  repeat first | rfl | split | simp only []

theorem cmd_go_sys (w : World) (who : Option Nat) (arg : Option String) :
    (cmd_go w who arg).1.sys = w.sys := by
  unfold cmd_go
  repeat first | rfl | split | simp only []

theorem cmd_say_sys (w : World) (who : Option Nat) :
    (cmd_say w who).1.sys = w.sys := by
  unfold cmd_say
  repeat first | rfl | split | simp only []

theorem cmd_inventory_sys (w : World) (who : Option Nat) :
    (cmd_inventory w who).1.sys = w.sys := by
  unfold cmd_inventory
  repeat first | rfl | split | simp only []

theorem cmd_state_sys (w : World) (who : Option Nat) :
    (cmd_state w who).1.sys = w.sys := by
  unfold cmd_state
  repeat first | rfl | split | simp only []

theorem cmd_grab_sys (w : World) (who : Option Nat) (arg : Option String) :
    (cmd_grab w who arg).1.sys = w.sys := by
  unfold cmd_grab
  repeat first | rfl | split | simp only []

theorem cmd_analyze_sys (w : World) (who : Option Nat) (arg : Option String) :
    (cmd_analyze w who arg).1.sys = w.sys := by
  unfold cmd_analyze
  repeat first | rfl | split | simp only []

theorem sysEvo_cmd_feed (w : World) (who : Option Nat) (arg : Option String) :
    SysEvo w.sys (cmd_feed w who arg).1.sys := by
  unfold cmd_feed
  repeat' first | exact SysEvo.refl _ | split | simp only []
  all_goals
    repeat
      first
      | exact SysEvo.refl _
      | apply SysEvo.recomp
      | apply sysEvo_ite
      | apply SysEvo.stab
      | apply SysEvo.trust
      | apply SysEvo.mood
      | apply SysEvo.hung
      | apply SysEvo.junk

theorem sysEvo_cmd_clean (w : World) (who : Option Nat) (arg : Option String) :
    SysEvo w.sys (cmd_clean w who arg).1.sys := by
  unfold cmd_clean
  repeat' first | exact SysEvo.refl _ | split | simp only []
  all_goals
    repeat
      first
      | exact SysEvo.refl _
      | apply SysEvo.recomp
      | apply sysEvo_ite
      | apply SysEvo.stab
      | apply SysEvo.mood
      | apply SysEvo.junk

/-- The combined daemon-flag plus helper-record update of cmd_rescue. -/
theorem sysEvo_daemon_helper {s t : SystemState} (b : Bool) (h : HelperState)
    (he : SysEvo s t) : SysEvo s { t with daemon_lost := b, helper := h } :=
  SysEvo.helper h _ _ (SysEvo.daemon b _ _ he)

theorem sysEvo_cmd_rescue (w : World) (who : Option Nat) :
    SysEvo w.sys (cmd_rescue w who).1.sys := by
  unfold cmd_rescue
  repeat' first | exact SysEvo.refl _ | split | simp only []
  all_goals
    repeat
      first
      | exact SysEvo.refl _
      | apply SysEvo.recomp
      | apply sysEvo_daemon_helper
      | apply SysEvo.helper
      | apply SysEvo.daemon
      | apply SysEvo.stab
      | apply SysEvo.mood
      | apply SysEvo.trust

theorem sysEvo_cmd_clear (w : World) (who : Option Nat) :
    SysEvo w.sys (cmd_clear w who).1.sys := by
  unfold cmd_clear
  repeat' first | exact SysEvo.refl _ | split | simp only []
  all_goals
    repeat
      first
      | exact SysEvo.refl _
      | apply SysEvo.recomp
      | apply SysEvo.mood
      | apply SysEvo.stab
      | apply SysEvo.junk

theorem sysEvo_cmd_pet (w : World) (who : Option Nat) :
    SysEvo w.sys (cmd_pet w who).1.sys := by
  unfold cmd_pet
  repeat' first | exact SysEvo.refl _ | split | simp only []
  all_goals
    repeat
      first
      | exact SysEvo.refl _
      | apply SysEvo.recomp
      | apply SysEvo.trust
      | apply SysEvo.mood

theorem sysEvo_cmd_debug (w : World) (who : Option Nat) :
    SysEvo w.sys (cmd_debug w who).1.sys := by
  unfold cmd_debug
  repeat' first | exact SysEvo.refl _ | split | simp only []
  all_goals
    repeat
      first
      | exact SysEvo.refl _
      | apply SysEvo.recomp
      | apply sysEvo_ite
      | apply SysEvo.stab
      | apply SysEvo.mood
      | apply SysEvo.junk

theorem sysEvo_cmd_sing (w : World) (who : Option Nat) :
    SysEvo w.sys (cmd_sing w who).1.sys := by
  unfold cmd_sing
  repeat' first | exact SysEvo.refl _ | split | simp only []
  all_goals
    repeat
      first
      | exact SysEvo.refl _
      | apply SysEvo.recomp
      | apply SysEvo.stab
      | apply SysEvo.trust
      | apply SysEvo.mood

theorem cmd_reset_sys (sr : Int) (w : World) (who : Option Nat) :
    (cmd_reset sr w who).1.sys = w.sys ∨ (cmd_reset sr w who).1.sys = resetSys := by
  unfold cmd_reset
  repeat first | (left; rfl) | (right; rfl) | split | simp only []

/-- Gated arms either reject (world unchanged) or run the handler. -/
theorem run_gated_cases (w : World) (cmd : String) (k : World → World × List Out) :
    (run_gated w cmd k).1 = w ∨ (run_gated w cmd k).1 = (k w).1 := by
  unfold run_gated
  split_ifs
  · right; rfl
  · left; rfl

/-- The system state after any command line: unchanged system state, an
admissible evolution, or the reset state. -/
theorem handle_sys (sr : Int) (w : World) (who : Option Nat) (verb : String)
    (arg : Option String) :
    SysEvo w.sys (handle sr w who verb arg).1.sys ∨
    (handle sr w who verb arg).1.sys = resetSys := by
  rcases handle_cases sr w who verb arg with
    h | h | h | h | h | h | h | h | h | h | h | h | ⟨hv, h⟩ | h | h | h | h | h
  · rw [h, cmd_login_sys]; exact Or.inl (SysEvo.refl _)
  · rw [h, cmd_look_sys]; exact Or.inl (SysEvo.refl _)
  · rw [h, cmd_go_sys]; exact Or.inl (SysEvo.refl _)
  · rw [h]
    rcases run_gated_cases w "grab" (fun w => cmd_grab w who arg) with h2 | h2 <;>
      rw [h2]
    · exact Or.inl (SysEvo.refl _)
    · rw [cmd_grab_sys]; exact Or.inl (SysEvo.refl _)
  · rw [h]
    rcases run_gated_cases w "analyze" (fun w => cmd_analyze w who arg) with h2 | h2 <;>
      rw [h2]
    · exact Or.inl (SysEvo.refl _)
    · rw [cmd_analyze_sys]; exact Or.inl (SysEvo.refl _)
  · rw [h]
    rcases run_gated_cases w "feed" (fun w => cmd_feed w who arg) with h2 | h2 <;>
      rw [h2]
    · exact Or.inl (SysEvo.refl _)
    · exact Or.inl (sysEvo_cmd_feed w who arg)
  · rw [h]
    rcases run_gated_cases w "clean" (fun w => cmd_clean w who arg) with h2 | h2 <;>
      rw [h2]
    · exact Or.inl (SysEvo.refl _)
    · exact Or.inl (sysEvo_cmd_clean w who arg)
  · rw [h]
    rcases run_gated_cases w "rescue" (fun w => cmd_rescue w who) with h2 | h2 <;>
      rw [h2]
    · exact Or.inl (SysEvo.refl _)
    · exact Or.inl (sysEvo_cmd_rescue w who)
  · rw [h]
    rcases run_gated_cases w "clear" (fun w => cmd_clear w who) with h2 | h2 <;>
      rw [h2]
    · exact Or.inl (SysEvo.refl _)
    · exact Or.inl (sysEvo_cmd_clear w who)
  · rw [h]
    rcases run_gated_cases w "pet" (fun w => cmd_pet w who) with h2 | h2 <;> rw [h2]
    · exact Or.inl (SysEvo.refl _)
    · exact Or.inl (sysEvo_cmd_pet w who)
  · rw [h]
    rcases run_gated_cases w "debug" (fun w => cmd_debug w who) with h2 | h2 <;>
      rw [h2]
    · exact Or.inl (SysEvo.refl _)
    · exact Or.inl (sysEvo_cmd_debug w who)
  · rw [h]
    rcases run_gated_cases w "sing" (fun w => cmd_sing w who) with h2 | h2 <;>
      rw [h2]
    · exact Or.inl (SysEvo.refl _)
    · exact Or.inl (sysEvo_cmd_sing w who)
  · rw [h]
    rcases run_gated_cases w "reset" (fun w => cmd_reset sr w who) with h2 | h2 <;>
      rw [h2]
    · exact Or.inl (SysEvo.refl _)
    · rcases cmd_reset_sys sr w who with h3 | h3 <;> rw [h3]
      · exact Or.inl (SysEvo.refl _)
      · exact Or.inr rfl
  · rw [h, cmd_inventory_sys]; exact Or.inl (SysEvo.refl _)
  · rw [h, cmd_state_sys]; exact Or.inl (SysEvo.refl _)
  · rw [h, cmd_say_sys]; exact Or.inl (SysEvo.refl _)
  · rw [h]; exact Or.inl (SysEvo.refl _)
  · rw [h]; exact Or.inl (SysEvo.refl _)

/-- A crashed world ignores the tick entirely. -/
theorem tick_crashed_eq (w : World) (g : Rng) (h : w.sys.crashed = true) :
    monster_game_tick w g = (w, g, true) := by
  unfold monster_game_tick
  rw [if_pos h]

/- ---- Claim C3 ---------------------------------------------------------- -/

/-- C3: in every state reachable from the initial state by any sequence
of ticks and command invocations, the bounded scalars lie in their
documented closed intervals: stability in 0..100, hunger in 0..10, mood
in -10..10, trust in 0..10, junk load in 0..50. -/
theorem C3_scalars_stay_in_bounds (w : World) (hr : Reachable w) :
    InBounds w.sys := by
  induction hr with
  | init => decide
  | step w w2 hr hstep ih =>
    cases hstep with
    | tickStep g =>
      by_cases hc : w.sys.crashed = true
      · rw [tick_crashed_eq w g hc]
        exact ih
      · have hc2 : w.sys.crashed = false := by simpa using hc
        obtain ⟨t, hev, hcase⟩ := tick_sys_shape w g hc2
        rcases hcase with ⟨_, heq⟩ | ⟨_, heq⟩ <;> rw [heq]
        · rw [maybe_advance_eq]
          exact (sysEvo_fields hev).2.2 ih
        · rw [crash_report_eq, maybe_advance_eq]
          exact (sysEvo_fields hev).2.2 ih
    | cmdStep sr who verb arg =>
      rcases handle_sys sr w who verb arg with hev | hres
      · exact (sysEvo_fields hev).2.2 ih
      · rw [hres]
        decide

/-- Witness for C3 at the initial world. -/
theorem C3_witness : InBounds initWorld.sys :=
  C3_scalars_stay_in_bounds initWorld Reachable.init

/- ---- Claim C5 ---------------------------------------------------------- -/

/-- Any command line other than reset leaves the lifecycle stage alone. -/
theorem handle_lifecycle_nr (sr : Int) (w : World) (who : Option Nat)
    (verb : String) (arg : Option String) (hne : verb ≠ "reset") :
    (handle sr w who verb arg).1.sys.lifecycle = w.sys.lifecycle := by
  rcases handle_cases sr w who verb arg with
    h | h | h | h | h | h | h | h | h | h | h | h | ⟨hv, h⟩ | h | h | h | h | h
  · rw [h, cmd_login_sys]
  · rw [h, cmd_look_sys]
  · rw [h, cmd_go_sys]
  · rw [h]
    rcases run_gated_cases w "grab" (fun w => cmd_grab w who arg) with h2 | h2 <;>
      rw [h2]
    rw [cmd_grab_sys]
  · rw [h]
    rcases run_gated_cases w "analyze" (fun w => cmd_analyze w who arg) with h2 | h2 <;>
      rw [h2]
    rw [cmd_analyze_sys]
  · rw [h]
    rcases run_gated_cases w "feed" (fun w => cmd_feed w who arg) with h2 | h2 <;>
      rw [h2]
    exact (sysEvo_fields (sysEvo_cmd_feed w who arg)).2.1
  · rw [h]
    rcases run_gated_cases w "clean" (fun w => cmd_clean w who arg) with h2 | h2 <;>
      rw [h2]
    exact (sysEvo_fields (sysEvo_cmd_clean w who arg)).2.1
  · rw [h]
    rcases run_gated_cases w "rescue" (fun w => cmd_rescue w who) with h2 | h2 <;>
      rw [h2]
    exact (sysEvo_fields (sysEvo_cmd_rescue w who)).2.1
  · rw [h]
    rcases run_gated_cases w "clear" (fun w => cmd_clear w who) with h2 | h2 <;>
      rw [h2]
    exact (sysEvo_fields (sysEvo_cmd_clear w who)).2.1
  · rw [h]
    rcases run_gated_cases w "pet" (fun w => cmd_pet w who) with h2 | h2 <;> rw [h2]
    exact (sysEvo_fields (sysEvo_cmd_pet w who)).2.1
  · rw [h]
    rcases run_gated_cases w "debug" (fun w => cmd_debug w who) with h2 | h2 <;>
      rw [h2]
    exact (sysEvo_fields (sysEvo_cmd_debug w who)).2.1
  · rw [h]
    rcases run_gated_cases w "sing" (fun w => cmd_sing w who) with h2 | h2 <;>
      rw [h2]
    exact (sysEvo_fields (sysEvo_cmd_sing w who)).2.1
  · exact absurd hv hne
  · rw [h, cmd_inventory_sys]
  · rw [h, cmd_state_sys]
  · rw [h, cmd_say_sys]
  · rw [h]
  · rw [h]

/-- One non-reset step never lowers the lifecycle stage. -/
theorem stepNR_lifecycle_mono {w w2 : World} (h : StepNR w w2) :
    w.sys.lifecycle.toNat ≤ w2.sys.lifecycle.toNat := by
  cases h with
  | tickStep g =>
    by_cases hc : w.sys.crashed = true
    · rw [tick_crashed_eq w g hc]
    · have hc2 : w.sys.crashed = false := by simpa using hc
      obtain ⟨t, hev, hcase⟩ := tick_sys_shape w g hc2
      have ht : t.lifecycle = w.sys.lifecycle := (sysEvo_fields hev).2.1
      have hm := advance_loop_mono t stage_rules
      rw [ht] at hm
      rcases hcase with ⟨_, heq⟩ | ⟨_, heq⟩ <;> rw [heq]
      · exact hm
      · rw [crash_report_eq]
        exact hm
  | cmdStep sr who verb arg hne =>
    rw [handle_lifecycle_nr sr w who verb arg hne]

/-- The transition taken by one loop step when the rule is at or below
the current stage. -/
theorem advance_loop_step_skip {s : SystemState} {r : StageRule}
    {rest : List StageRule} (h : r.stage.toNat ≤ s.lifecycle.toNat) :
    advance_loop s (r :: rest) = advance_loop s rest := by
  simp only [advance_loop]
  rw [if_pos h]

/-- The transition taken by one loop step when the rule is above the
current stage and met. -/
theorem advance_loop_step_ok {s : SystemState} {r : StageRule}
    {rest : List StageRule} (h1 : ¬r.stage.toNat ≤ s.lifecycle.toNat)
    (h2 : rule_ok s r) :
    advance_loop s (r :: rest) =
      advance_loop { s with lifecycle := r.stage } rest := by
  simp only [advance_loop]
  rw [if_neg h1, if_neg (by unfold rule_ok at h2; omega),
    if_neg (by unfold rule_ok at h2; omega)]

/-- The transition taken by one loop step when the rule is above the
current stage and unmet: the walk stops. -/
theorem advance_loop_step_stop {s : SystemState} {r : StageRule}
    {rest : List StageRule} (h1 : ¬r.stage.toNat ≤ s.lifecycle.toNat)
    (h2 : ¬rule_ok s r) :
    advance_loop s (r :: rest) = s := by
  simp only [advance_loop]
  rw [if_neg h1]
  by_cases ht : s.tick < r.min_tick
  · rw [if_pos ht]
  · rw [if_neg ht, if_pos (by unfold rule_ok at h2; omega)]

/-- The loop walk over a stage-sorted rule list reaches a rule stage
exactly when every rule strictly between the current stage and it is
met. -/
theorem advance_loop_spec (l : List StageRule)
    (hs : l.Pairwise (fun a b => a.stage.toNat < b.stage.toNat)) :
    ∀ s : SystemState, ∀ r ∈ l, s.lifecycle.toNat < r.stage.toNat →
      (r.stage.toNat ≤ (advance_loop s l).lifecycle.toNat ↔
       ∀ r2 ∈ l, s.lifecycle.toNat < r2.stage.toNat →
         r2.stage.toNat ≤ r.stage.toNat → rule_ok s r2) := by
  induction l with
  | nil =>
    intro s r hr
    exact absurd hr (List.not_mem_nil r)
  | cons r0 rest ih =>
    rw [List.pairwise_cons] at hs
    obtain ⟨hall, hrest⟩ := hs
    intro s r hr hlt
    by_cases hskip : r0.stage.toNat ≤ s.lifecycle.toNat
    · rw [advance_loop_step_skip hskip]
      have hr' : r ∈ rest := by
        rcases List.mem_cons.mp hr with h0 | h0
        · exfalso; rw [h0] at hlt; omega
        · exact h0
      rw [ih hrest s r hr' hlt]
      constructor
      · intro hh r2 hr2 ha hb
        rcases List.mem_cons.mp hr2 with h0 | h0
        · exfalso; rw [h0] at ha; omega
        · exact hh r2 h0 ha hb
      · intro hh r2 hr2 ha hb
        exact hh r2 (List.mem_cons_of_mem r0 hr2) ha hb
    · by_cases hok : rule_ok s r0
      · rw [advance_loop_step_ok hskip hok]
        rcases List.mem_cons.mp hr with h0 | h0
        · subst h0
          constructor
          · intro _ r2 hr2 ha hb
            rcases List.mem_cons.mp hr2 with h1 | h1
            · rw [h1]; exact hok
            · exact absurd hb (by have := hall r2 h1; omega)
          · intro _
            have hm := advance_loop_mono { s with lifecycle := r.stage } rest
            exact hm
        · have hlt' : ({ s with lifecycle := r0.stage } :
              SystemState).lifecycle.toNat < r.stage.toNat := hall r h0
          rw [ih hrest _ r h0 hlt']
          constructor
          · intro hh r2 hr2 ha hb
            rcases List.mem_cons.mp hr2 with h1 | h1
            · rw [h1]; exact hok
            · exact hh r2 h1 (hall r2 h1) hb
          · intro hh r2 hr2 ha hb
            have hlt2 : s.lifecycle.toNat < r2.stage.toNat := by
              have := hall r2 hr2; omega
            exact hh r2 (List.mem_cons_of_mem r0 hr2) hlt2 hb
      · rw [advance_loop_step_stop hskip hok]
        constructor
        · intro hh
          exact absurd hh (by omega)
        · intro hh
          exfalso
          refine hok (hh r0 (List.mem_cons_self r0 rest) (by omega) ?_)
          rcases List.mem_cons.mp hr with h0 | h0
          · rw [h0]
          · have := hall r h0; omega

/-- C5: the lifecycle-advance walk visits only rules strictly above the
current stage, in order, reaching a rule stage exactly when every rule up
to it is met by the current tick and stability (so stages are never
skipped and the walk stops at the first unmet rule); the stage never
decreases across any single advance, nor across any trace of ticks and
non-reset commands; and a reset issued on a crashed world puts the
lifecycle back exactly at Hatchling. -/
theorem C5_lifecycle_order_and_monotonicity :
    (∀ s : SystemState,
      s.lifecycle.toNat ≤ (maybe_advance_lifecycle s).lifecycle.toNat) ∧
    (∀ s : SystemState, ∀ r ∈ stage_rules, s.lifecycle.toNat < r.stage.toNat →
      (r.stage.toNat ≤ (maybe_advance_lifecycle s).lifecycle.toNat ↔
       ∀ r2 ∈ stage_rules, s.lifecycle.toNat < r2.stage.toNat →
         r2.stage.toNat ≤ r.stage.toNat → rule_ok s r2)) ∧
    (∀ w w2 : World, Relation.ReflTransGen StepNR w w2 →
      w.sys.lifecycle.toNat ≤ w2.sys.lifecycle.toNat) ∧
    (∀ (sr : Int) (w : World) (who : Option Nat),
      (getActor w who).isSome = true → w.sys.crashed = true →
      (cmd_reset sr w who).1.sys.lifecycle = Stage.hatchling) := by
  refine ⟨fun s => advance_loop_mono s stage_rules, ?_, ?_, ?_⟩
  · intro s r hr hlt
    exact advance_loop_spec stage_rules (by decide) s r hr hlt
  · intro w w2 htr
    induction htr with
    | refl => exact Nat.le_refl _
    | tail h1 h2 ih => exact Nat.le_trans ih (stepNR_lifecycle_mono h2)
  · intro sr w who hwho hc
    unfold cmd_reset
    cases hg : getActor w who with
    | none => rw [hg] at hwho; exact absurd hwho (by simp)
    | some ip =>
      simp only [hc]
      rfl

/-- Witness for C5: its conditional parts applied at concrete inputs. -/
theorem C5_witness :
    ((Stage.growing.toNat ≤ (maybe_advance_lifecycle resetSys).lifecycle.toNat ↔
      ∀ r2 ∈ stage_rules, resetSys.lifecycle.toNat < r2.stage.toNat →
        r2.stage.toNat ≤ Stage.growing.toNat → rule_ok resetSys r2) ∧
     initWorld.sys.lifecycle.toNat ≤ initWorld.sys.lifecycle.toNat ∧
     (cmd_reset 0 wCrashedRetired (some 0)).1.sys.lifecycle = Stage.hatchling) :=
  ⟨C5_lifecycle_order_and_monotonicity.2.1 resetSys ⟨Stage.growing, 120, 40⟩
      (by decide) (by decide),
   C5_lifecycle_order_and_monotonicity.2.2.1 initWorld initWorld
      Relation.ReflTransGen.refl,
   C5_lifecycle_order_and_monotonicity.2.2.2 0 wCrashedRetired (some 0) rfl rfl⟩

/- ---- Claim C2 ---------------------------------------------------------- -/

/-- Counterexample to C2 as stated: the reset verb sits in the gate table
at stage Retired, so in a crashed world still at Hatchling the reset
line is rejected by the stage gate with a tip and changes nothing: the
world (tick 5, crashed true) is returned unchanged and no reset or
success report happens. -/
theorem C2_counterexample :
    wCrashed.sys.crashed = true ∧
    handle 0 wCrashed (some 0) "reset" (Option.none) =
      (wCrashed, [(Dest.toSelf, MsgTag.tipGate Stage.retired Stage.hatchling)]) := by
  constructor
  · rfl
  · rfl

/-- C2 (amended): reset is stage-gated at Retired. Once the gate passes,
a reset line issued by a logged-in session on a crashed world performs
the full reset and reports success: system state back to the documented
defaults, every room slot cleared, every actor's inventory cleared and
the actor relocated to the configured start room; on a non-crashed world
at Retired the reset line changes nothing and reports that no reset was
needed; below Retired the gate rejects the line with a tip and no
effect. -/
theorem C2_reset_round_trip_when_gate_passes :
    (∀ (sr : Int) (w : World) (who : Option Nat) (arg : Option String),
      (getActor w who).isSome = true →
      w.sys.lifecycle = Stage.retired →
      w.sys.crashed = true →
      handle sr w who "reset" arg =
        (world_after_reset sr w,
         [(Dest.toAll, MsgTag.questGoal), (Dest.toAll, MsgTag.commandsAvail),
          (Dest.toAll, MsgTag.resetRestores), (Dest.toSelf, MsgTag.resetComplete)])) ∧
    (∀ (sr : Int) (w : World) (who : Option Nat) (arg : Option String),
      (getActor w who).isSome = true →
      w.sys.lifecycle = Stage.retired →
      w.sys.crashed = false →
      handle sr w who "reset" arg = (w, [(Dest.toSelf, MsgTag.stillRunning)])) ∧
    (∀ (sr : Int) (w : World) (who : Option Nat) (arg : Option String),
      w.sys.lifecycle.toNat < Stage.retired.toNat →
      handle sr w who "reset" arg =
        (w, [(Dest.toSelf, MsgTag.tipGate Stage.retired w.sys.lifecycle)])) ∧
    (resetSys.stability = 100 ∧ resetSys.hunger = 3 ∧ resetSys.mood = 0 ∧
     resetSys.trust = 3 ∧ resetSys.junk_load = 0 ∧ resetSys.tick = 0 ∧
     resetSys.daemon_lost = false ∧ resetSys.crashed = false ∧
     resetSys.lifecycle = Stage.hatchling ∧
     resetSys.helper = ⟨false, false, false, 0, 0, 0⟩) := by
  have hfg : find_gate "reset" = some ("reset", Stage.retired) := by decide
  refine ⟨?_, ?_, ?_, by decide⟩
  · intro sr w who arg hwho hl hc
    rw [show handle sr w who "reset" arg =
          run_gated w "reset" (fun w => cmd_reset sr w who) by simp [handle]]
    have hperm : command_permitted w "reset" = true := by
      unfold command_permitted required_stage
      rw [hfg]
      exact decide_eq_true (by rw [hl]; exact Nat.le_refl _)
    unfold run_gated
    rw [if_pos hperm]
    unfold cmd_reset
    cases hg : getActor w who with
    | none => rw [hg] at hwho; exact absurd hwho (by simp)
    | some ip =>
      simp only [hg, hc]
      rfl
  · intro sr w who arg hwho hl hc
    rw [show handle sr w who "reset" arg =
          run_gated w "reset" (fun w => cmd_reset sr w who) by simp [handle]]
    have hperm : command_permitted w "reset" = true := by
      unfold command_permitted required_stage
      rw [hfg]
      exact decide_eq_true (by rw [hl]; exact Nat.le_refl _)
    unfold run_gated
    rw [if_pos hperm]
    unfold cmd_reset
    cases hg : getActor w who with
    | none => rw [hg] at hwho; exact absurd hwho (by simp)
    | some ip =>
      simp only [hg, hc]
      rfl
  · intro sr w who arg hlt
    rw [show handle sr w who "reset" arg =
          run_gated w "reset" (fun w => cmd_reset sr w who) by simp [handle],
      run_gated_reject (command_permitted_eq_false hfg hlt), gate_tip_eq hfg]

/-- Witness for C2 (amended): a crashed Retired world is fully reset and
a running Retired world reports that no reset was needed. -/
theorem C2_witness :
    (handle 0 wCrashedRetired (some 0) "reset" (Option.none) =
      (world_after_reset 0 wCrashedRetired,
       [(Dest.toAll, MsgTag.questGoal), (Dest.toAll, MsgTag.commandsAvail),
        (Dest.toAll, MsgTag.resetRestores), (Dest.toSelf, MsgTag.resetComplete)])) ∧
    (handle 0 wRetiredOk (some 0) "reset" (Option.none) =
      (wRetiredOk, [(Dest.toSelf, MsgTag.stillRunning)])) :=
  ⟨C2_reset_round_trip_when_gate_passes.1 0 wCrashedRetired (some 0) Option.none
      rfl rfl rfl,
   C2_reset_round_trip_when_gate_passes.2.1 0 wRetiredOk (some 0) Option.none
      rfl rfl rfl⟩

/- ---- Claim C8 ---------------------------------------------------------- -/

/-- Counterexample to C8 as stated: with hunger already 0, feeding a RAM
chunk in the Nursery leaves hunger at 0; it does not decrease by 3,
because adjust_hunger clamps at the lower bound. -/
theorem C8_counterexample :
    wFeedZero.sys.hunger = 0 ∧
    (wFeedZero.actors.getD 0 actorA).room_id = ROOM_NURSERY ∧
    item_is_feed ((wFeedZero.actors.getD 0 actorA).inventory.getD 0 emptyHeld).type
      = true ∧
    (cmd_feed wFeedZero (some 0) (some "1")).1.sys.hunger = 0 := by
  refine ⟨rfl, rfl, rfl, rfl⟩

/-- C8 (amended): feeding in the Nursery from an occupied slot. A feed
kind drops hunger by 3 (4 for the CPU slice) clamped below at 0, raises
mood by 2 (3 for the IO token), trust by 1 and stability by 2 (one more
for the RAM chunk), each clamped to its range, empties the slot and
broadcasts to the Nursery. A junk kind (any mutated item in the buffet
becomes junk data, so this covers mutated junk) raises hunger by 1,
lowers mood by 3, trust by 2 and stability by 5, raises junk load by 2,
all clamped, empties the slot and broadcasts the glitch. Any other kind
is refused with no state change, and outside the Nursery the command
changes nothing. -/
theorem C8_feed_effects (w : World) (i si : Nat) (a : Actor)
    (arg : Option String) (it : HeldItem)
    (hget : w.actors.get? i = some a) :
    (a.room_id = ROOM_NURSERY →
     resolve_slot a arg = (si : Int) → si < INVENTORY_SLOTS →
     a.inventory.getD si emptyHeld = it →
     ((item_is_feed it.type = true →
       (cmd_feed w (some i) arg).2 =
           [(Dest.toRoom ROOM_NURSERY, MsgTag.monsterPurrs)] ∧
       (cmd_feed w (some i) arg).1.actors =
           w.actors.set i { a with inventory := a.inventory.set si emptyHeld } ∧
       (cmd_feed w (some i) arg).1.objects = w.objects ∧
       (cmd_feed w (some i) arg).1.sys.hunger =
           clamp_s32 (w.sys.hunger -
             (if it.type = ItemType.cpuSlice then 4 else 3)) 0 10 ∧
       (cmd_feed w (some i) arg).1.sys.mood =
           clamp_s32 (w.sys.mood +
             (if it.type = ItemType.ioToken then 3 else 2)) (-10) 10 ∧
       (cmd_feed w (some i) arg).1.sys.trust =
           clamp_s32 (w.sys.trust + 1) 0 10 ∧
       (cmd_feed w (some i) arg).1.sys.stability =
           (if it.type = ItemType.ramChunk
            then clamp_s32 (clamp_s32 (w.sys.stability + 2) 0 100 + 1) 0 100
            else clamp_s32 (w.sys.stability + 2) 0 100) ∧
       (cmd_feed w (some i) arg).1.sys.junk_load = w.sys.junk_load ∧
       (cmd_feed w (some i) arg).1.sys.tick = w.sys.tick) ∧
      (item_is_junk it.type = true →
       (cmd_feed w (some i) arg).2 =
           [(Dest.toRoom ROOM_NURSERY, MsgTag.monsterGlitchesFeed)] ∧
       (cmd_feed w (some i) arg).1.actors =
           w.actors.set i { a with inventory := a.inventory.set si emptyHeld } ∧
       (cmd_feed w (some i) arg).1.objects = w.objects ∧
       (cmd_feed w (some i) arg).1.sys.hunger =
           clamp_s32 (w.sys.hunger + 1) 0 10 ∧
       (cmd_feed w (some i) arg).1.sys.mood =
           clamp_s32 (w.sys.mood - 3) (-10) 10 ∧
       (cmd_feed w (some i) arg).1.sys.trust =
           clamp_s32 (w.sys.trust - 2) 0 10 ∧
       (cmd_feed w (some i) arg).1.sys.stability =
           clamp_s32 (w.sys.stability - 5) 0 100 ∧
       (cmd_feed w (some i) arg).1.sys.junk_load =
           clamp_s32 (w.sys.junk_load + 2) 0 50 ∧
       (cmd_feed w (some i) arg).1.sys.tick = w.sys.tick) ∧
      (item_is_feed it.type = false → item_is_junk it.type = false →
       it.type ≠ ItemType.none →
       cmd_feed w (some i) arg = (w, [(Dest.toSelf, MsgTag.monsterRefuses)])))) ∧
    (a.room_id ≠ ROOM_NURSERY →
     cmd_feed w (some i) arg = (w, [(Dest.toSelf, MsgTag.feedElsewhere)])) := by
  have hga : getActor w (some i) = some (i, a) := by
    show (w.actors.get? i).map (fun a => (i, a)) = some (i, a)
    rw [hget]
    rfl
  constructor
  · intro hroom hs hsi hiteq
    have hsi3 : si < 3 := by simpa [INVENTORY_SLOTS] using hsi
    refine ⟨?_, ?_, ?_⟩
    · intro hfeed
      have hne : it.type ≠ ItemType.none := by
        intro hh
        rw [hh] at hfeed
        exact absurd hfeed (by decide)
      unfold cmd_feed
      simp only [hga]
      rw [if_neg (by simp [hroom]), hs]
      rw [if_neg (by simp only [INVENTORY_SLOTS]; omega)]
      simp only [Int.toNat_natCast]
      simp only [hiteq]
      rw [if_neg hne, if_pos hfeed]
      refine ⟨rfl, rfl, rfl, ?_, ?_, ?_, ?_, ?_, ?_⟩ <;> split_ifs <;> rfl
    · intro hjunk
      have hne : it.type ≠ ItemType.none := by
        intro hh
        rw [hh] at hjunk
        exact absurd hjunk (by decide)
      have hnf : ¬item_is_feed it.type = true := by
        intro hh
        unfold item_is_junk at hjunk
        unfold item_is_feed at hh
        cases hty : it.type <;> rw [hty] at hjunk hh <;> simp_all
      unfold cmd_feed
      simp only [hga]
      rw [if_neg (by simp [hroom]), hs]
      rw [if_neg (by simp only [INVENTORY_SLOTS]; omega)]
      simp only [Int.toNat_natCast]
      simp only [hiteq]
      rw [if_neg hne, if_neg hnf, if_pos hjunk]
      refine ⟨rfl, rfl, rfl, rfl, rfl, rfl, rfl, rfl, rfl⟩
    · intro hnf hnj hne
      unfold cmd_feed
      simp only [hga]
      rw [if_neg (by simp [hroom]), hs]
      rw [if_neg (by simp only [INVENTORY_SLOTS]; omega)]
      simp only [Int.toNat_natCast]
      simp only [hiteq]
      rw [if_neg hne, if_neg (by rw [hnf]; exact Bool.false_ne_true),
        if_neg (by rw [hnj]; exact Bool.false_ne_true)]
  · intro hroom
    unfold cmd_feed
    simp only [hga]
    rw [if_pos hroom]

/-- Witness for C8 (amended): feeding a CPU slice at the fresh scalars
drops hunger from 3 to 0 and empties the slot. -/
theorem C8_witness :
    (cmd_feed wFeedSample (some 0) (some "1")).1.sys.hunger =
      clamp_s32 (wFeedSample.sys.hunger - 4) 0 10 ∧
    (cmd_feed wFeedSample (some 0) (some "1")).1.actors =
      wFeedSample.actors.set 0
        { wFeedSample.actors.getD 0 actorA with
          inventory := (wFeedSample.actors.getD 0 actorA).inventory.set 0 emptyHeld } := by
  have h := (C8_feed_effects wFeedSample 0 0 (wFeedSample.actors.getD 0 actorA)
    (some "1") ⟨ItemType.cpuSlice, ⟨true, false⟩⟩ rfl).1 rfl rfl (by decide) rfl
  exact ⟨(h.1 rfl).2.2.2.1, (h.1 rfl).2.1⟩

/- ---- List accounting lemmas -------------------------------------------- -/

theorem countP_set_eq {α : Type} (p : α → Bool) (xs : List α) (i : Nat) (x d : α)
    (h : i < xs.length) :
    (xs.set i x).countP p + (if p (xs.getD i d) = true then 1 else 0) =
      xs.countP p + (if p x = true then 1 else 0) := by
  induction xs generalizing i with
  | nil => simp at h
  | cons ahd tl ih =>
    cases i with
    | zero =>
      show (x :: tl).countP p + _ = _
      rw [List.countP_cons, List.countP_cons, List.getD_cons_zero]
      omega
    | succ n =>
      have h2 : n < tl.length := by simpa using h
      show (ahd :: tl.set n x).countP p + _ = _
      rw [List.countP_cons, List.countP_cons, List.getD_cons_succ]
      have h3 := ih n h2
      omega

theorem sum_map_set {α : Type} (f : α → Nat) (xs : List α) (i : Nat) (x d : α)
    (h : i < xs.length) :
    ((xs.set i x).map f).sum + f (xs.getD i d) = (xs.map f).sum + f x := by
  induction xs generalizing i with
  | nil => simp at h
  | cons ahd tl ih =>
    cases i with
    | zero =>
      show ((x :: tl).map f).sum + f ahd = _
      simp only [List.map_cons, List.sum_cons, List.getD_cons_zero]
      omega
    | succ n =>
      have h2 : n < tl.length := by simpa using h
      show ((ahd :: tl.set n x).map f).sum + _ = _
      simp only [List.map_cons, List.sum_cons, List.getD_cons_succ]
      have h3 := ih n h2
      omega

theorem countP_set_le {α : Type} (p : α → Bool) (xs : List α) (i : Nat) (x : α)
    (hx : p x = false) : (xs.set i x).countP p ≤ xs.countP p := by
  induction xs generalizing i with
  | nil => exact Nat.le_refl _
  | cons ahd tl ih =>
    cases i with
    | zero =>
      show (x :: tl).countP p ≤ _
      rw [List.countP_cons, List.countP_cons, hx]
      simp
    | succ n =>
      show (ahd :: tl.set n x).countP p ≤ _
      rw [List.countP_cons, List.countP_cons]
      have h3 := ih n
      omega

theorem countP_map_le {α : Type} (p : α → Bool) (f : α → α) (xs : List α)
    (hf : ∀ o, p (f o) = true → p o = true) :
    (xs.map f).countP p ≤ xs.countP p := by
  induction xs with
  | nil => exact Nat.le_refl _
  | cons ahd tl ih =>
    rw [List.map_cons, List.countP_cons, List.countP_cons]
    have h4 := ih
    by_cases hp : p (f ahd) = true
    · rw [if_pos hp, if_pos (hf ahd hp)]
      omega
    · rw [if_neg hp]
      omega

theorem find_first_idx_some {α : Type} {p : α → Bool} {l : List α} {i : Nat}
    (d : α) (h : find_first_idx p l = some i) :
    i < l.length ∧ p (l.getD i d) = true := by
  induction l generalizing i with
  | nil => simp [find_first_idx] at h
  | cons ahd tl ih =>
    unfold find_first_idx at h
    by_cases hp : p ahd = true
    · rw [if_pos hp] at h
      simp only [Option.some.injEq] at h
      rw [← h]
      exact ⟨Nat.succ_pos _, by simpa [List.getD_cons_zero] using hp⟩
    · rw [if_neg hp] at h
      cases hfi : find_first_idx p tl with
      | none => rw [hfi] at h; simp at h
      | some j =>
        rw [hfi] at h
        simp only [Option.map_some', Option.some.injEq] at h
        obtain ⟨hj1, hj2⟩ := ih hfi
        rw [← h]
        exact ⟨by simpa using hj1, by simpa [List.getD_cons_succ] using hj2⟩

theorem room_match_object_occupied {l : List RoomObject} {tok : String} {i : Nat}
    (h : room_match_object l tok = some i) :
    i < l.length ∧ (l.getD i emptyObj).type ≠ ItemType.none := by
  unfold room_match_object at h
  simp only [] at h
  split at h
  · rename_i i2 heq
    simp only [Option.some.injEq] at h
    rw [← h]
    split at heq
    · rename_i idx hk
      split_ifs at heq with h1 h2
      · simp only [Option.some.injEq] at heq
        rw [← heq]
        refine ⟨?_, h2⟩
        by_contra hlen
        rw [List.getD_eq_default] at h2
        · exact h2 rfl
        · omega
    · exact absurd heq (by simp)
  · obtain ⟨h1, h2⟩ := find_first_idx_some emptyObj h
    refine ⟨h1, ?_⟩
    have h3 := (Bool.and_eq_true _ _).mp h2
    have h4 := h3.1
    intro hn
    rw [hn] at h4
    exact absurd h4 (by decide)

theorem inventory_first_free_spec {a : Actor} {i : Nat}
    (h : inventory_first_free a = some i) :
    i < a.inventory.length ∧ (a.inventory.getD i emptyHeld).type = ItemType.none := by
  obtain ⟨h1, h2⟩ := find_first_idx_some emptyHeld h
  refine ⟨h1, ?_⟩
  simpa using h2

theorem room_first_free_slot_spec {l : List RoomObject} {i : Nat}
    (h : room_first_free_slot l = some i) :
    i < l.length ∧ (l.getD i emptyObj).type = ItemType.none := by
  obtain ⟨h1, h2⟩ := find_first_idx_some emptyObj h
  refine ⟨h1, ?_⟩
  simpa using h2

theorem first_daemon_idx_spec {l : List RoomObject} {i : Nat}
    (h : first_daemon_idx l = some i) :
    i < l.length ∧ (l.getD i emptyObj).type = ItemType.babyDaemon := by
  obtain ⟨h1, h2⟩ := find_first_idx_some emptyObj h
  refine ⟨h1, ?_⟩
  simpa using h2

theorem getD_mem_of_lt {α : Type} (l : List α) (i : Nat) (d : α)
    (h : i < l.length) : l.getD i d ∈ l := by
  induction l generalizing i with
  | nil => simp at h
  | cons ahd tl ih =>
    cases i with
    | zero => rw [List.getD_cons_zero]; exact List.mem_cons_self _ _
    | succ n =>
      rw [List.getD_cons_succ]
      exact List.mem_cons_of_mem _ (ih n (by simpa using h))

theorem room_match_object_count_pos {l : List RoomObject} {tok : String} {i : Nat}
    (h : room_match_object l tok = some i) : room_object_count l ≠ 0 := by
  obtain ⟨h1, h2⟩ := room_match_object_occupied h
  unfold room_object_count
  have hmem : l.getD i emptyObj ∈ l := getD_mem_of_lt l i emptyObj h1
  have hpos : 0 < l.countP (fun o => !(o.type == ItemType.none)) := by
    rw [List.countP_pos_iff]
    exact ⟨l.getD i emptyObj, hmem, by simpa using h2⟩
  omega

theorem lt_length_of_get_eq {α : Type} {l : List α} {i : Nat} {x : α}
    (h : l.get? i = some x) : i < l.length := by
  induction l generalizing i with
  | nil => simp at h
  | cons ahd tl ih =>
    cases i with
    | zero => exact Nat.succ_pos _
    | succ n => exact Nat.succ_lt_succ (ih h)

theorem getD_of_get_eq {α : Type} {l : List α} {i : Nat} {x : α} (d : α)
    (h : l.get? i = some x) : l.getD i d = x := by
  induction l generalizing i with
  | nil => simp at h
  | cons ahd tl ih =>
    cases i with
    | zero =>
      rw [List.getD_cons_zero]
      exact Option.some.inj h
    | succ n =>
      rw [List.getD_cons_succ]
      exact ih h

/- ---- cmd_grab branch characterizations --------------------------------- -/

theorem getActor_some_of {w : World} {i : Nat} {a : Actor}
    (h : w.actors.get? i = some a) : getActor w (some i) = some (i, a) := by
  show (w.actors.get? i).map (fun x => (i, x)) = some (i, a)
  rw [h]
  rfl

theorem getActor_none_of {w : World} {i : Nat}
    (h : w.actors.get? i = Option.none) : getActor w (some i) = Option.none := by
  show (w.actors.get? i).map (fun x => (i, x)) = Option.none
  rw [h]
  rfl

theorem cmd_grab_empty (w : World) (i : Nat) (a : Actor) (arg : Option String)
    (hget : w.actors.get? i = some a)
    (hc : room_object_count (roomObjs w a.room_id) = 0) :
    cmd_grab w (some i) arg = (w, [(Dest.toSelf, MsgTag.nothingToGrab)]) := by
  unfold cmd_grab
  rw [getActor_some_of hget]
  simp only []
  rw [if_pos hc]

theorem cmd_grab_nomatch (w : World) (i : Nat) (a : Actor) (arg : Option String)
    (hget : w.actors.get? i = some a)
    (hc : room_object_count (roomObjs w a.room_id) ≠ 0)
    (hm : room_match_object (roomObjs w a.room_id) (grab_token arg) = Option.none) :
    cmd_grab w (some i) arg = (w, [(Dest.toSelf, MsgTag.noSuchItem)]) := by
  unfold cmd_grab
  rw [getActor_some_of hget]
  simp only []
  rw [if_neg hc, hm]

theorem cmd_grab_daemon (w : World) (i : Nat) (a : Actor) (arg : Option String)
    (slot : Nat) (hget : w.actors.get? i = some a)
    (hm : room_match_object (roomObjs w a.room_id) (grab_token arg) = some slot)
    (hd : ((roomObjs w a.room_id).getD slot emptyObj).type = ItemType.babyDaemon) :
    cmd_grab w (some i) arg = (w, [(Dest.toSelf, MsgTag.daemonScoots)]) := by
  unfold cmd_grab
  rw [getActor_some_of hget]
  simp only []
  rw [if_neg (room_match_object_count_pos hm), hm]
  simp only []
  rw [if_pos hd]

theorem cmd_grab_full (w : World) (i : Nat) (a : Actor) (arg : Option String)
    (slot : Nat) (hget : w.actors.get? i = some a)
    (hm : room_match_object (roomObjs w a.room_id) (grab_token arg) = some slot)
    (hd : ((roomObjs w a.room_id).getD slot emptyObj).type ≠ ItemType.babyDaemon)
    (hfree : inventory_first_free a = Option.none) :
    cmd_grab w (some i) arg = (w, [(Dest.toSelf, MsgTag.invFull)]) := by
  unfold cmd_grab
  rw [getActor_some_of hget]
  simp only []
  rw [if_neg (room_match_object_count_pos hm), hm]
  simp only []
  rw [if_neg hd, hfree]

theorem cmd_grab_success (w : World) (i : Nat) (a : Actor) (arg : Option String)
    (slot inv : Nat) (hget : w.actors.get? i = some a)
    (hm : room_match_object (roomObjs w a.room_id) (grab_token arg) = some slot)
    (hd : ((roomObjs w a.room_id).getD slot emptyObj).type ≠ ItemType.babyDaemon)
    (hfree : inventory_first_free a = some inv) :
    cmd_grab w (some i) arg =
      (grab_moved w i a slot inv,
       [(Dest.toSelf,
         MsgTag.stashed ((roomObjs w a.room_id).getD slot emptyObj).type inv)]) := by
  unfold cmd_grab
  rw [getActor_some_of hget]
  simp only []
  rw [if_neg (room_match_object_count_pos hm), hm]
  simp only []
  rw [if_neg hd, hfree]
  rfl

/-- grab never changes the total number of items in existence. -/
theorem cmd_grab_total (w : World) (who : Option Nat) (arg : Option String) :
    total_items (cmd_grab w who arg).1 = total_items w := by
  cases who with
  | none => rfl
  | some i =>
    cases hg : w.actors.get? i with
    | none =>
      unfold cmd_grab
      rw [getActor_none_of hg]
    | some a =>
      by_cases hc : room_object_count (roomObjs w a.room_id) = 0
      · rw [cmd_grab_empty w i a arg hg hc]
      · cases hm : room_match_object (roomObjs w a.room_id) (grab_token arg) with
        | none => rw [cmd_grab_nomatch w i a arg hg hc hm]
        | some slot =>
          by_cases hd :
              ((roomObjs w a.room_id).getD slot emptyObj).type = ItemType.babyDaemon
          · rw [cmd_grab_daemon w i a arg slot hg hm hd]
          · cases hfree : inventory_first_free a with
            | none => rw [cmd_grab_full w i a arg slot hg hm hd hfree]
            | some inv =>
              rw [cmd_grab_success w i a arg slot inv hg hm hd hfree]
              obtain ⟨hslt, hocc⟩ := room_match_object_occupied hm
              obtain ⟨hinv, hfreeT⟩ := inventory_first_free_spec hfree
              have hil : i < w.actors.length := lt_length_of_get_eq hg
              have hrid : a.room_id < w.objects.length := by
                by_contra hr
                have hnil : roomObjs w a.room_id = [] := by
                  unfold roomObjs
                  rw [List.getD_eq_default]
                  omega
                rw [hnil] at hslt
                simp at hslt
              have hgd : w.actors.getD i a = a := getD_of_get_eq a hg
              have hobjsum := sum_map_set room_object_count w.objects a.room_id
                ((roomObjs w a.room_id).set slot emptyObj) [] hrid
              rw [show w.objects.getD a.room_id [] = roomObjs w a.room_id from rfl]
                at hobjsum
              have hactsum := sum_map_set inv_count w.actors i
                (grab_p1 w a slot inv) a hil
              rw [hgd] at hactsum
              have hcnt : room_object_count ((roomObjs w a.room_id).set slot emptyObj)
                  + 1 = room_object_count (roomObjs w a.room_id) := by
                have h2 := countP_set_eq (fun o => !(o.type == ItemType.none))
                  (roomObjs w a.room_id) slot emptyObj emptyObj hslt
                simp only [] at h2
                have hp1 :
                    (!(((roomObjs w a.room_id).getD slot emptyObj).type == ItemType.none))
                      = true := by simpa using hocc
                have hp2 : (!((emptyObj : RoomObject).type == ItemType.none)) = false := by
                  decide
                simp only [hp1, hp2] at h2
                simp at h2
                unfold room_object_count
                omega
              have hinc : inv_count (grab_p1 w a slot inv) = inv_count a + 1 := by
                have h2 := countP_set_eq (fun it => !(it.type == ItemType.none))
                  a.inventory inv (grab_held w a slot) emptyHeld hinv
                simp only [] at h2
                have hp1 : (!((a.inventory.getD inv emptyHeld).type == ItemType.none))
                    = false := by rw [hfreeT]; rfl
                have hp2 : (!((grab_held w a slot).type == ItemType.none)) = true := by
                  unfold grab_held
                  simpa using hocc
                simp only [hp1, hp2] at h2
                simp at h2
                show (a.inventory.set inv (grab_held w a slot)).countP
                    (fun it => !(it.type == ItemType.none)) = inv_count a + 1
                unfold inv_count
                omega
              unfold total_items grab_moved setRoomObjs
              simp only []
              omega

/-- C9: for a logged-in actor, grab fails — leaving the world unchanged —
exactly in the four documented cases: the room has no objects, no object
matches the token, the matched object is the stray creature, or the
inventory has no free slot; on success the matched room slot is cleared
and exactly its kind and flags appear in the first free inventory slot,
which becomes the selected slot; and in every case the total number of
items across rooms and inventories is unchanged, so grab moves and never
duplicates. -/
theorem C9_grab_moves_never_duplicates (w : World) (i : Nat) (a : Actor)
    (arg : Option String) (hget : w.actors.get? i = some a) :
    (room_object_count (roomObjs w a.room_id) = 0 →
      cmd_grab w (some i) arg = (w, [(Dest.toSelf, MsgTag.nothingToGrab)])) ∧
    (room_object_count (roomObjs w a.room_id) ≠ 0 →
      room_match_object (roomObjs w a.room_id) (grab_token arg) = Option.none →
      cmd_grab w (some i) arg = (w, [(Dest.toSelf, MsgTag.noSuchItem)])) ∧
    (∀ slot, room_match_object (roomObjs w a.room_id) (grab_token arg) = some slot →
      ((roomObjs w a.room_id).getD slot emptyObj).type = ItemType.babyDaemon →
      cmd_grab w (some i) arg = (w, [(Dest.toSelf, MsgTag.daemonScoots)])) ∧
    (∀ slot, room_match_object (roomObjs w a.room_id) (grab_token arg) = some slot →
      ((roomObjs w a.room_id).getD slot emptyObj).type ≠ ItemType.babyDaemon →
      inventory_first_free a = Option.none →
      cmd_grab w (some i) arg = (w, [(Dest.toSelf, MsgTag.invFull)])) ∧
    (∀ slot inv,
      room_match_object (roomObjs w a.room_id) (grab_token arg) = some slot →
      ((roomObjs w a.room_id).getD slot emptyObj).type ≠ ItemType.babyDaemon →
      inventory_first_free a = some inv →
      cmd_grab w (some i) arg =
        (grab_moved w i a slot inv,
         [(Dest.toSelf,
           MsgTag.stashed ((roomObjs w a.room_id).getD slot emptyObj).type inv)])) ∧
    total_items (cmd_grab w (some i) arg).1 = total_items w := by
  exact ⟨fun hc => cmd_grab_empty w i a arg hget hc,
    fun hc hm => cmd_grab_nomatch w i a arg hget hc hm,
    fun slot hm hd => cmd_grab_daemon w i a arg slot hget hm hd,
    fun slot hm hd hfree => cmd_grab_full w i a arg slot hget hm hd hfree,
    fun slot inv hm hd hfree => cmd_grab_success w i a arg slot inv hget hm hd hfree,
    cmd_grab_total w (some i) arg⟩

/-- C9 witness: in the sample world, grab with no argument moves the RAM
chunk from Nursery slot 1 to the first inventory slot and conserves the
item total. -/
theorem C9_witness :
    wGrabSample.actors.get? 0 = some actorA ∧
    cmd_grab wGrabSample (some 0) Option.none =
      (grab_moved wGrabSample 0 actorA 0 0,
       [(Dest.toSelf, MsgTag.stashed ItemType.ramChunk 0)]) ∧
    total_items (cmd_grab wGrabSample (some 0) Option.none).1 =
      total_items wGrabSample := by
  have h := C9_grab_moves_never_duplicates wGrabSample 0 actorA Option.none rfl
  refine ⟨rfl, ?_, h.2.2.2.2.2⟩
  exact h.2.2.2.2.1 0 0 rfl (by decide) rfl

/- ---- Daemon accounting toolkit ----------------------------------------- -/

theorem list_set_oob {α : Type} (l : List α) (i : Nat) (x : α)
    (h : l.length ≤ i) : l.set i x = l := by
  induction l generalizing i with
  | nil => rfl
  | cons ahd tl ih =>
    cases i with
    | zero => simp at h
    | succ n =>
      show ahd :: tl.set n x = ahd :: tl
      rw [ih n (by simpa using h)]

theorem getD_set_self {α : Type} (l : List α) (i : Nat) (x d : α)
    (h : i < l.length) : (l.set i x).getD i d = x := by
  induction l generalizing i with
  | nil => simp at h
  | cons ahd tl ih =>
    cases i with
    | zero => rfl
    | succ n =>
      show (ahd :: tl.set n x).getD (n + 1) d = x
      rw [List.getD_cons_succ]
      exact ih n (by simpa using h)

theorem getD_set_ne {α : Type} (l : List α) (i j : Nat) (x d : α)
    (h : i ≠ j) : (l.set i x).getD j d = l.getD j d := by
  induction l generalizing i j with
  | nil => rfl
  | cons ahd tl ih =>
    cases i with
    | zero =>
      cases j with
      | zero => exact absurd rfl h
      | succ m =>
        show (x :: tl).getD (m + 1) d = _
        rw [List.getD_cons_succ, List.getD_cons_succ]
    | succ n =>
      cases j with
      | zero => rfl
      | succ m =>
        show (ahd :: tl.set n x).getD (m + 1) d = _
        rw [List.getD_cons_succ, List.getD_cons_succ]
        exact ih n m (by omega)

theorem find_first_idx_none {α : Type} {p : α → Bool} {l : List α}
    (h : find_first_idx p l = Option.none) : l.countP p = 0 := by
  induction l with
  | nil => rfl
  | cons ahd tl ih =>
    unfold find_first_idx at h
    by_cases hp : p ahd = true
    · rw [if_pos hp] at h
      exact absurd h (by simp)
    · rw [if_neg hp] at h
      have h2 : find_first_idx p tl = Option.none := by
        cases hfi : find_first_idx p tl with
        | none => rfl
        | some j => rw [hfi] at h; simp at h
      rw [List.countP_cons, ih h2, if_neg hp]

theorem roomObjs_sys_update (w : World) (s : SystemState) (r : Nat) :
    roomObjs { w with sys := s } r = roomObjs w r := rfl

theorem roomObjs_set_self {w : World} {rid : Nat} (l : List RoomObject)
    (h : rid < w.objects.length) :
    roomObjs (setRoomObjs w rid l) rid = l := by
  unfold roomObjs setRoomObjs
  simp only []
  exact getD_set_self _ _ _ _ h

theorem roomObjs_set_ne {w : World} {rid r : Nat} (l : List RoomObject)
    (h : rid ≠ r) : roomObjs (setRoomObjs w rid l) r = roomObjs w r := by
  unfold roomObjs setRoomObjs
  simp only []
  exact getD_set_ne _ _ _ _ _ h

theorem room_daemons_set {l : List RoomObject} {i : Nat} (o : RoomObject)
    (hi : i < l.length) :
    room_daemons (l.set i o) +
      (if ((l.getD i emptyObj).type == ItemType.babyDaemon) = true then 1 else 0) =
    room_daemons l + (if (o.type == ItemType.babyDaemon) = true then 1 else 0) := by
  unfold room_daemons
  have h2 := countP_set_eq (fun o => o.type == ItemType.babyDaemon) l i o emptyObj hi
  simpa using h2

theorem room_daemons_set_nondaemon {l : List RoomObject} {i : Nat} (o : RoomObject)
    (hold : (l.getD i emptyObj).type ≠ ItemType.babyDaemon)
    (hnew : o.type ≠ ItemType.babyDaemon) :
    room_daemons (l.set i o) = room_daemons l := by
  by_cases hi : i < l.length
  · have h2 := room_daemons_set o hi
    rw [if_neg (by simpa using hold), if_neg (by simpa using hnew)] at h2
    omega
  · rw [list_set_oob _ _ _ (by omega)]

theorem room_daemons_set_remove {l : List RoomObject} {i : Nat} (o : RoomObject)
    (hi : i < l.length)
    (hold : (l.getD i emptyObj).type = ItemType.babyDaemon)
    (hnew : o.type ≠ ItemType.babyDaemon) :
    room_daemons (l.set i o) + 1 = room_daemons l := by
  have h2 := room_daemons_set o hi
  rw [if_pos (by simpa using hold), if_neg (by simpa using hnew)] at h2
  omega

theorem decayObj_type {o : RoomObject}
    (h : (decayObj o).type = ItemType.babyDaemon) : o.type = ItemType.babyDaemon := by
  unfold decayObj at h
  split_ifs at h
  · exact h
  · exact absurd h (by simp [emptyObj])
  · exact h
  · exact h

theorem room_daemons_map_decay (l : List RoomObject) :
    room_daemons (l.map decayObj) ≤ room_daemons l := by
  unfold room_daemons
  apply countP_map_le
  intro o ho
  have h2 : (decayObj o).type = ItemType.babyDaemon := by simpa using ho
  simpa using decayObj_type h2

theorem room_daemons_map_clearjunk (l : List RoomObject) :
    room_daemons (l.map (fun o => if o.type = ItemType.junkData then emptyObj else o)) ≤
      room_daemons l := by
  unfold room_daemons
  apply countP_map_le
  intro o ho
  by_cases hj : o.type = ItemType.junkData
  · rw [if_pos hj] at ho
    exact absurd ho (by simp [emptyObj])
  · rw [if_neg hj] at ho
    exact ho

theorem daemonAux_zero (w : World) (hlen : w.objects.length = 3)
    (h0 : room_daemons (roomObjs w ROOM_NURSERY) = 0)
    (h1 : room_daemons (roomObjs w ROOM_BUFFET) = 0)
    (h2 : room_daemons (roomObjs w ROOM_FIELDS) = 0) : DaemonAux w :=
  ⟨hlen, h0, h1, by omega, fun hge => absurd hge (by omega)⟩

theorem daemonAux_sys_same (w : World) (s : SystemState)
    (hflag : s.daemon_lost = w.sys.daemon_lost) (h : DaemonAux w) :
    DaemonAux { w with sys := s } := by
  obtain ⟨hlen, h0, h1, h2, h3⟩ := h
  exact ⟨hlen, h0, h1, h2, fun hge => by rw [hflag]; exact h3 hge⟩

theorem daemonAux_actors_same (w : World) (as : List Actor) (h : DaemonAux w) :
    DaemonAux { w with actors := as } := by
  obtain ⟨hlen, h0, h1, h2, h3⟩ := h
  exact ⟨hlen, h0, h1, h2, h3⟩

theorem daemonAux_sys_actors_same (w : World) (s : SystemState) (as : List Actor)
    (hflag : s.daemon_lost = w.sys.daemon_lost) (h : DaemonAux w) :
    DaemonAux { w with sys := s, actors := as } := by
  obtain ⟨hlen, h0, h1, h2, h3⟩ := h
  exact ⟨hlen, h0, h1, h2, fun hge => by rw [hflag]; exact h3 hge⟩

theorem room_daemons_after_set_le (w : World) (rid : Nat) (l : List RoomObject)
    (r : Nat) (hle : room_daemons l ≤ room_daemons (roomObjs w rid)) :
    room_daemons (roomObjs (setRoomObjs w rid l) r) ≤ room_daemons (roomObjs w r) := by
  by_cases hr : rid = r
  · subst hr
    by_cases hlen : rid < w.objects.length
    · rw [roomObjs_set_self l hlen]
      exact hle
    · have hobj : roomObjs (setRoomObjs w rid l) rid = roomObjs w rid := by
        unfold roomObjs setRoomObjs
        simp only []
        rw [list_set_oob _ _ _ (by omega)]
      rw [hobj]
  · rw [roomObjs_set_ne l hr]

theorem daemonAux_setRoomObjs_le (w : World) (rid : Nat) (l : List RoomObject)
    (hle : room_daemons l ≤ room_daemons (roomObjs w rid)) (h : DaemonAux w) :
    DaemonAux (setRoomObjs w rid l) := by
  obtain ⟨hlen, h0, h1, h2, h3⟩ := h
  have k0 := room_daemons_after_set_le w rid l ROOM_NURSERY hle
  have k1 := room_daemons_after_set_le w rid l ROOM_BUFFET hle
  have k2 := room_daemons_after_set_le w rid l ROOM_FIELDS hle
  refine ⟨?_, by omega, by omega, by omega, ?_⟩
  · show (w.objects.set rid l).length = 3
    rw [List.length_set]
    exact hlen
  · intro hge
    show w.sys.daemon_lost = true
    exact h3 (by omega)

/- ---- DaemonAux through the tick phases --------------------------------- -/

theorem room_add_object_spec {w : World} {rid : Nat} {ty : ItemType} {ttl : Nat}
    {wi : World × Nat} (h : room_add_object w rid ty ttl = some wi) :
    room_first_free_slot (roomObjs w rid) = some wi.2 ∧
    wi.1 = setRoomObjs w rid ((roomObjs w rid).set wi.2 ⟨ty, ttl, ⟨false, false⟩⟩) := by
  unfold room_add_object at h
  cases h0 : room_first_free_slot (roomObjs w rid) with
  | none => rw [h0] at h; exact absurd h (by simp)
  | some i =>
    rw [h0] at h
    simp only [Option.some.injEq] at h
    rw [← h]
    exact ⟨rfl, rfl⟩

theorem daemonAux_room_add {w : World} {rid : Nat} {ty : ItemType} {ttl : Nat}
    {wi : World × Nat} (h : DaemonAux w)
    (hadd : room_add_object w rid ty ttl = some wi)
    (hty : ty ≠ ItemType.babyDaemon) : DaemonAux wi.1 := by
  obtain ⟨hfs, hw⟩ := room_add_object_spec hadd
  obtain ⟨hsl, hfree⟩ := room_first_free_slot_spec hfs
  rw [hw]
  refine daemonAux_setRoomObjs_le _ _ _ ?_ h
  exact Nat.le_of_eq (room_daemons_set_nondaemon _ (by rw [hfree]; decide) hty)

theorem room_daemons_set_sametype {l : List RoomObject} {i : Nat} (o : RoomObject)
    (hty : o.type = (l.getD i emptyObj).type) :
    room_daemons (l.set i o) = room_daemons l := by
  by_cases hi : i < l.length
  · have h2 := room_daemons_set o hi
    rw [hty] at h2
    omega
  · rw [list_set_oob _ _ _ (by omega)]

theorem daemonAux_setSlotMutated (w : World) (rid i : Nat) (h : DaemonAux w) :
    DaemonAux (setSlotMutated w rid i) := by
  unfold setSlotMutated
  simp only []
  refine daemonAux_setRoomObjs_le _ _ _ ?_ h
  exact Nat.le_of_eq (room_daemons_set_sametype _ rfl)

theorem random_buffet_ne_daemon (g : Rng) :
    (random_buffet_resource g).1 ≠ ItemType.babyDaemon := by
  unfold random_buffet_resource
  simp only []
  split_ifs <;> decide

theorem daemonAux_spawn_buffet (w : World) (g : Rng) (h : DaemonAux w) :
    DaemonAux (spawn_buffet_resource w g).1 := by
  unfold spawn_buffet_resource
  split_ifs with h0
  · exact h
  · simp only []
    split
    · exact h
    · rename_i wi heq
      split_ifs with h1 h2
      · exact daemonAux_setSlotMutated _ _ _
          (daemonAux_room_add h heq (random_buffet_ne_daemon g))
      · exact daemonAux_room_add h heq (random_buffet_ne_daemon g)
      · exact daemonAux_room_add h heq (random_buffet_ne_daemon g)

theorem daemonAux_add_daemon (w : World) (slot ttl : Nat) (s : SystemState)
    (hlen : w.objects.length = 3)
    (ha : room_daemons (roomObjs w ROOM_NURSERY) = 0)
    (hb : room_daemons (roomObjs w ROOM_BUFFET) = 0)
    (hf0 : room_daemons (roomObjs w ROOM_FIELDS) = 0)
    (hsl : slot < (roomObjs w ROOM_FIELDS).length)
    (hfree : ((roomObjs w ROOM_FIELDS).getD slot emptyObj).type = ItemType.none)
    (hsd : s.daemon_lost = true) :
    DaemonAux { setRoomObjs w ROOM_FIELDS
        ((roomObjs w ROOM_FIELDS).set slot ⟨ItemType.babyDaemon, ttl, ⟨false, false⟩⟩)
      with sys := s } := by
  have hfl2 : ROOM_FIELDS < w.objects.length := by rw [hlen]; decide
  have hadd : room_daemons ((roomObjs w ROOM_FIELDS).set slot
      ⟨ItemType.babyDaemon, ttl, ⟨false, false⟩⟩) =
      room_daemons (roomObjs w ROOM_FIELDS) + 1 := by
    have h2 := room_daemons_set (l := roomObjs w ROOM_FIELDS)
      ⟨ItemType.babyDaemon, ttl, ⟨false, false⟩⟩ hsl
    rw [if_neg (by rw [hfree]; decide)] at h2
    simp at h2
    omega
  refine ⟨?_, ?_, ?_, ?_, ?_⟩
  · show (w.objects.set ROOM_FIELDS ((roomObjs w ROOM_FIELDS).set slot
      ⟨ItemType.babyDaemon, ttl, ⟨false, false⟩⟩)).length = 3
    rw [List.length_set]
    exact hlen
  · rw [roomObjs_sys_update, roomObjs_set_ne _ (show ROOM_FIELDS ≠ ROOM_NURSERY by decide)]
    exact ha
  · rw [roomObjs_sys_update, roomObjs_set_ne _ (show ROOM_FIELDS ≠ ROOM_BUFFET by decide)]
    exact hb
  · rw [roomObjs_sys_update, roomObjs_set_self _ hfl2, hadd]
    omega
  · intro _
    exact hsd

theorem daemonAux_spawn_daemon (w : World) (g : Rng) (h : DaemonAux w) :
    DaemonAux (spawn_daemon w g).1 := by
  unfold spawn_daemon
  split_ifs with h0 h1
  · exact h
  · exact h
  · simp only []
    split
    · exact h
    · rename_i wi heq
      obtain ⟨hfs, hw⟩ := room_add_object_spec heq
      obtain ⟨hsl, hfree⟩ := room_first_free_slot_spec hfs
      obtain ⟨hlen, ha, hb, hc, hd⟩ := h
      have hflag : w.sys.daemon_lost = false := by simpa using h1
      have hf0 : room_daemons (roomObjs w ROOM_FIELDS) = 0 := by
        by_contra hf
        have h2 := hd (by omega)
        rw [h2] at hflag
        exact absurd hflag (by decide)
      rw [hw]
      exact daemonAux_add_daemon _ _ _ _ hlen ha hb hf0 hsl hfree rfl

theorem first_feed_idx_spec {l : List RoomObject} {i : Nat}
    (h : first_feed_idx l = some i) :
    i < l.length ∧ item_is_feed (l.getD i emptyObj).type = true := by
  obtain ⟨h1, h2⟩ := find_first_idx_some emptyObj h
  exact ⟨h1, ((Bool.and_eq_true _ _).mp h2).2⟩

theorem item_is_feed_ne_daemon {t : ItemType} (h : item_is_feed t = true) :
    t ≠ ItemType.babyDaemon := by
  intro he
  rw [he] at h
  exact absurd h (by decide)

theorem daemonAux_resource_mutation (w : World) (g : Rng) (h : DaemonAux w) :
    DaemonAux (event_resource_mutation w g).1 := by
  unfold event_resource_mutation
  split
  · exact h
  · rename_i i heq
    simp only []
    apply daemonAux_sys_same _ _ rfl
    refine daemonAux_setRoomObjs_le _ _ _ ?_ h
    obtain ⟨hsl, hfeed⟩ := first_feed_idx_spec heq
    exact Nat.le_of_eq
      (room_daemons_set_nondaemon _ (item_is_feed_ne_daemon hfeed)
        (fun hx => ItemType.noConfusion hx))

theorem daemonAux_mood_swing (w : World) (g : Rng) (h : DaemonAux w) :
    DaemonAux (event_mood_swing w g).1 := by
  unfold event_mood_swing
  exact daemonAux_sys_same _ _ rfl h

theorem daemonAux_glitch_attempt (w : World) (g : Rng) (n : Nat) (h : DaemonAux w) :
    DaemonAux (glitch_storm_attempt w g n).1 := by
  unfold glitch_storm_attempt
  split
  · exact h
  · simp only []
    split
    · exact h
    · rename_i wi heq
      exact daemonAux_room_add h heq (by decide)

theorem daemonAux_glitch_storm (w : World) (g : Rng) (h : DaemonAux w) :
    DaemonAux (event_glitch_storm w g).1 := by
  unfold event_glitch_storm
  simp only []
  split_ifs with h1
  · exact daemonAux_sys_same _ _ rfl
      (daemonAux_glitch_attempt _ _ _ (daemonAux_glitch_attempt _ _ _ h))
  · exact daemonAux_glitch_attempt _ _ _ (daemonAux_glitch_attempt _ _ _ h)

theorem daemonAux_lucky_sync (w : World) (g : Rng) (h : DaemonAux w) :
    DaemonAux (event_lucky_sync w g).1 := by
  unfold event_lucky_sync
  simp only []
  exact daemonAux_spawn_buffet _ _ (daemonAux_sys_same _ _ rfl h)

theorem daemonAux_run_event (e : EventId) (w : World) (g : Rng) (h : DaemonAux w) :
    DaemonAux (run_event e w g).1 := by
  cases e
  · exact daemonAux_resource_mutation w g h
  · exact daemonAux_mood_swing w g h
  · exact daemonAux_spawn_daemon w g h
  · exact daemonAux_glitch_storm w g h
  · exact daemonAux_lucky_sync w g h

theorem daemonAux_run_random_event (w : World) (g : Rng) (h : DaemonAux w) :
    DaemonAux (run_random_event w g).1 := by
  unfold run_random_event
  simp only []
  split_ifs with h1
  · exact h
  · split
    · exact h
    · exact daemonAux_run_event _ _ _ h

theorem daemonAux_spawn_phase (w : World) (g : Rng) (h : DaemonAux w) :
    DaemonAux (spawn_phase w g).1 := by
  unfold spawn_phase
  simp only []
  split_ifs with h1 h2 h3
  · exact daemonAux_spawn_daemon _ _ (daemonAux_spawn_buffet _ _ h)
  · exact daemonAux_spawn_buffet _ _ h
  · exact daemonAux_spawn_daemon _ _ h
  · exact h

theorem update_phase_sys_daemon_lost (s : SystemState) :
    (update_phase_sys s).daemon_lost = s.daemon_lost := by
  unfold update_phase_sys
  simp only []
  repeat first | rfl | split

theorem daemonAux_update_phase (w : World) (g : Rng) (h : DaemonAux w) :
    DaemonAux (update_phase w g).1 := by
  have base : DaemonAux { w with sys := update_phase_sys w.sys } :=
    daemonAux_sys_same _ _ (update_phase_sys_daemon_lost w.sys) h
  unfold update_phase
  simp only []
  cases hro : room_add_object
      { sys := update_phase_sys w.sys, objects := w.objects, actors := w.actors }
      ROOM_BUFFET ItemType.junkData (rand_range 2 4 (rand_percent g).2).1 with
  | none =>
    simp only [hro]
    split_ifs <;>
      first
      | exact base
      | exact daemonAux_sys_same _ _ rfl base
  | some wi =>
    have hwi : DaemonAux wi.1 := daemonAux_room_add base hro (by decide)
    simp only [hro]
    split_ifs <;>
      first
      | exact base
      | exact daemonAux_sys_same _ _ rfl base
      | exact daemonAux_sys_same _ _ rfl hwi
      | exact daemonAux_sys_same _ _ rfl (daemonAux_sys_same _ _ rfl hwi)

theorem daemonAux_remove_fields_daemon (w : World) (i : Nat) (s : SystemState)
    (heq : first_daemon_idx (roomObjs w ROOM_FIELDS) = some i) (h : DaemonAux w) :
    DaemonAux { setRoomObjs w ROOM_FIELDS ((roomObjs w ROOM_FIELDS).set i emptyObj)
                with sys := s } := by
  obtain ⟨hlen, ha, hb, hc, hd⟩ := h
  obtain ⟨hi, hty⟩ := first_daemon_idx_spec heq
  have hfl2 : ROOM_FIELDS < w.objects.length := by rw [hlen]; decide
  have hrem := room_daemons_set_remove emptyObj hi hty (by decide)
  apply daemonAux_zero
  · show (w.objects.set ROOM_FIELDS ((roomObjs w ROOM_FIELDS).set i emptyObj)).length = 3
    rw [List.length_set]
    exact hlen
  · rw [roomObjs_sys_update, roomObjs_set_ne _ (show ROOM_FIELDS ≠ ROOM_NURSERY by decide)]
    exact ha
  · rw [roomObjs_sys_update, roomObjs_set_ne _ (show ROOM_FIELDS ≠ ROOM_BUFFET by decide)]
    exact hb
  · rw [roomObjs_sys_update, roomObjs_set_self _ hfl2]
    omega

theorem daemonAux_fields_empty (w : World) (s : SystemState)
    (hfd : first_daemon_idx (roomObjs w ROOM_FIELDS) = Option.none) (h : DaemonAux w) :
    DaemonAux { w with sys := s } := by
  obtain ⟨hlen, ha, hb, hc, hd⟩ := h
  have hzero : room_daemons (roomObjs w ROOM_FIELDS) = 0 := find_first_idx_none hfd
  exact daemonAux_zero _ hlen ha hb hzero

theorem daemonAux_helper_phase (w : World) (h : DaemonAux w) :
    DaemonAux (helper_phase w) := by
  unfold helper_phase
  simp only []
  apply daemonAux_sys_same _ _ rfl
  split_ifs <;> try split
  all_goals
    first
    | exact daemonAux_sys_same _ _ rfl (daemonAux_sys_same _ _ rfl h)
    | exact daemonAux_sys_same _ _ rfl h
    | (rename_i i heq
       exact daemonAux_remove_fields_daemon _ _ _ heq
         (daemonAux_sys_same _ _ rfl (daemonAux_sys_same _ _ rfl h)))
    | (rename_i i heq
       exact daemonAux_remove_fields_daemon _ _ _ heq
         (daemonAux_sys_same _ _ rfl h))

theorem daemonAux_room_decay (w : World) (rid : Nat) (h : DaemonAux w) :
    DaemonAux (room_decay_objects w rid) := by
  unfold room_decay_objects
  exact daemonAux_setRoomObjs_le _ _ _ (room_daemons_map_decay _) h

theorem daemonAux_cleanup (w : World) (h : DaemonAux w) :
    DaemonAux (cleanup_phase w) := by
  unfold cleanup_phase
  exact daemonAux_room_decay _ _ (daemonAux_room_decay _ _ (daemonAux_room_decay _ _ h))

theorem maybe_advance_daemon_lost (s : SystemState) :
    (maybe_advance_lifecycle s).daemon_lost = s.daemon_lost := by
  rw [maybe_advance_eq]

theorem crash_report_daemon_lost (s : SystemState) :
    (crash_report s).daemon_lost = s.daemon_lost := by
  rw [crash_report_eq]

theorem daemonAux_tick_phases (w : World) (g : Rng) (h : DaemonAux w) :
    DaemonAux (tick_phases w g).1 := by
  unfold tick_phases
  simp only []
  exact daemonAux_cleanup _ (daemonAux_helper_phase _ (daemonAux_run_random_event _ _
    (daemonAux_update_phase _ _ (daemonAux_spawn_phase _ _ (daemonAux_sys_same _ _ rfl h)))))

theorem daemonAux_tick (w : World) (g : Rng) (h : DaemonAux w) :
    DaemonAux (monster_game_tick w g).1 := by
  unfold monster_game_tick
  split_ifs with hc
  · exact h
  · simp only []
    obtain ⟨p, hpeq⟩ : ∃ p, tick_phases w g = p := ⟨_, rfl⟩
    rw [hpeq]
    have hp : DaemonAux p.1 := hpeq ▸ daemonAux_tick_phases w g h
    split
    · exact daemonAux_sys_same _ _
        (by rw [crash_report_daemon_lost, maybe_advance_daemon_lost]) hp
    · exact daemonAux_sys_same _ _ (maybe_advance_daemon_lost _) hp

/- ---- DaemonAux through the command handlers ---------------------------- -/

theorem daemonAux_cmd_login (sr : Int) (w : World) (who : Option Nat)
    (arg : Option String) (h : DaemonAux w) : DaemonAux (cmd_login sr w who arg).1 := by
  unfold cmd_login
  repeat'
    first
    | exact h
    | exact daemonAux_actors_same _ _ h
    | split
    | simp only []

theorem daemonAux_cmd_look (w : World) (who : Option Nat) (h : DaemonAux w) :
    DaemonAux (cmd_look w who).1 := by
  unfold cmd_look
  repeat' first | exact h | split | simp only []

theorem daemonAux_cmd_go (w : World) (who : Option Nat) (arg : Option String)
    (h : DaemonAux w) : DaemonAux (cmd_go w who arg).1 := by
  unfold cmd_go
  repeat'
    first
    | exact h
    | exact daemonAux_actors_same _ _ h
    | split
    | simp only []

theorem daemonAux_cmd_say (w : World) (who : Option Nat) (h : DaemonAux w) :
    DaemonAux (cmd_say w who).1 := by
  unfold cmd_say
  repeat' first | exact h | split | simp only []

theorem daemonAux_cmd_inventory (w : World) (who : Option Nat) (h : DaemonAux w) :
    DaemonAux (cmd_inventory w who).1 := by
  unfold cmd_inventory
  repeat' first | exact h | split | simp only []

theorem daemonAux_cmd_state (w : World) (who : Option Nat) (h : DaemonAux w) :
    DaemonAux (cmd_state w who).1 := by
  unfold cmd_state
  repeat' first | exact h | split | simp only []

theorem daemonAux_cmd_analyze (w : World) (who : Option Nat) (arg : Option String)
    (h : DaemonAux w) : DaemonAux (cmd_analyze w who arg).1 := by
  unfold cmd_analyze
  repeat'
    first
    | exact h
    | exact daemonAux_actors_same _ _ h
    | split
    | simp only []

theorem daemonAux_cmd_feed (w : World) (who : Option Nat) (arg : Option String)
    (h : DaemonAux w) : DaemonAux (cmd_feed w who arg).1 := by
  unfold cmd_feed
  repeat'
    first
    | exact h
    | exact daemonAux_sys_actors_same _ _ _ rfl h
    | exact daemonAux_actors_same _ _ h
    | split
    | simp only []

theorem daemonAux_cmd_clean (w : World) (who : Option Nat) (arg : Option String)
    (h : DaemonAux w) : DaemonAux (cmd_clean w who arg).1 := by
  unfold cmd_clean
  repeat'
    first
    | exact h
    | exact daemonAux_sys_actors_same _ _ _ rfl h
    | exact daemonAux_actors_same _ _ h
    | split
    | simp only []

theorem daemonAux_cmd_pet (w : World) (who : Option Nat) (h : DaemonAux w) :
    DaemonAux (cmd_pet w who).1 := by
  unfold cmd_pet
  repeat'
    first
    | exact h
    | exact daemonAux_sys_same _ _ rfl h
    | split
    | simp only []

theorem daemonAux_cmd_debug (w : World) (who : Option Nat) (h : DaemonAux w) :
    DaemonAux (cmd_debug w who).1 := by
  unfold cmd_debug
  repeat'
    first
    | exact h
    | exact daemonAux_sys_same _ _ rfl h
    | split
    | simp only []

theorem daemonAux_cmd_sing (w : World) (who : Option Nat) (h : DaemonAux w) :
    DaemonAux (cmd_sing w who).1 := by
  unfold cmd_sing
  repeat'
    first
    | exact h
    | exact daemonAux_sys_same _ _ rfl h
    | split
    | simp only []

theorem daemonAux_cmd_grab (w : World) (who : Option Nat) (arg : Option String)
    (h : DaemonAux w) : DaemonAux (cmd_grab w who arg).1 := by
  cases who with
  | none => exact h
  | some i =>
    cases hg : w.actors.get? i with
    | none =>
      unfold cmd_grab
      rw [getActor_none_of hg]
      exact h
    | some a =>
      by_cases hc : room_object_count (roomObjs w a.room_id) = 0
      · rw [cmd_grab_empty w i a arg hg hc]; exact h
      · cases hm : room_match_object (roomObjs w a.room_id) (grab_token arg) with
        | none => rw [cmd_grab_nomatch w i a arg hg hc hm]; exact h
        | some slot =>
          by_cases hd :
              ((roomObjs w a.room_id).getD slot emptyObj).type = ItemType.babyDaemon
          · rw [cmd_grab_daemon w i a arg slot hg hm hd]; exact h
          · cases hfree : inventory_first_free a with
            | none => rw [cmd_grab_full w i a arg slot hg hm hd hfree]; exact h
            | some inv =>
              rw [cmd_grab_success w i a arg slot inv hg hm hd hfree]
              unfold grab_moved
              refine daemonAux_setRoomObjs_le _ _ _ ?_ (daemonAux_actors_same _ _ h)
              exact Nat.le_of_eq (room_daemons_set_nondaemon _ hd
                (fun hx => ItemType.noConfusion hx))

theorem daemonAux_cmd_clear (w : World) (who : Option Nat) (h : DaemonAux w) :
    DaemonAux (cmd_clear w who).1 := by
  unfold cmd_clear
  split
  · exact h
  · simp only []
    split
    · exact h
    · split
      · exact daemonAux_sys_same _ _ rfl
          (daemonAux_setRoomObjs_le _ _ _ (room_daemons_map_clearjunk _) h)
      · exact daemonAux_setRoomObjs_le _ _ _ (room_daemons_map_clearjunk _) h

theorem daemonAux_cmd_rescue (w : World) (who : Option Nat) (h : DaemonAux w) :
    DaemonAux (cmd_rescue w who).1 := by
  unfold cmd_rescue
  split
  · exact h
  · split
    · exact h
    · simp only []
      split
      all_goals
        first
        | (rename_i i2 heq
           exact daemonAux_remove_fields_daemon _ _ _ heq h)
        | (rename_i heq
           split_ifs with hdl
           · exact daemonAux_fields_empty _ _ heq h
           · exact h)

theorem daemonAux_cmd_reset (sr : Int) (w : World) (who : Option Nat)
    (h : DaemonAux w) : DaemonAux (cmd_reset sr w who).1 := by
  unfold cmd_reset
  split
  · exact h
  · split
    · exact h
    · simp only []
      exact daemonAux_zero _ rfl rfl rfl rfl

theorem daemonAux_handle (sr : Int) (w : World) (who : Option Nat) (verb : String)
    (arg : Option String) (h : DaemonAux w) :
    DaemonAux (handle sr w who verb arg).1 := by
  rcases handle_cases sr w who verb arg with
    h1 | h1 | h1 | h1 | h1 | h1 | h1 | h1 | h1 | h1 | h1 | h1 | ⟨hv, h1⟩ | h1 | h1 | h1 |
    h1 | h1
  · rw [h1]; exact daemonAux_cmd_login sr w who arg h
  · rw [h1]; exact daemonAux_cmd_look w who h
  · rw [h1]; exact daemonAux_cmd_go w who arg h
  · rcases run_gated_cases w "grab" (fun w => cmd_grab w who arg) with h2 | h2
    · rw [h1, h2]; exact h
    · rw [h1, h2]; exact daemonAux_cmd_grab w who arg h
  · rcases run_gated_cases w "analyze" (fun w => cmd_analyze w who arg) with h2 | h2
    · rw [h1, h2]; exact h
    · rw [h1, h2]; exact daemonAux_cmd_analyze w who arg h
  · rcases run_gated_cases w "feed" (fun w => cmd_feed w who arg) with h2 | h2
    · rw [h1, h2]; exact h
    · rw [h1, h2]; exact daemonAux_cmd_feed w who arg h
  · rcases run_gated_cases w "clean" (fun w => cmd_clean w who arg) with h2 | h2
    · rw [h1, h2]; exact h
    · rw [h1, h2]; exact daemonAux_cmd_clean w who arg h
  · rcases run_gated_cases w "rescue" (fun w => cmd_rescue w who) with h2 | h2
    · rw [h1, h2]; exact h
    · rw [h1, h2]; exact daemonAux_cmd_rescue w who h
  · rcases run_gated_cases w "clear" (fun w => cmd_clear w who) with h2 | h2
    · rw [h1, h2]; exact h
    · rw [h1, h2]; exact daemonAux_cmd_clear w who h
  · rcases run_gated_cases w "pet" (fun w => cmd_pet w who) with h2 | h2
    · rw [h1, h2]; exact h
    · rw [h1, h2]; exact daemonAux_cmd_pet w who h
  · rcases run_gated_cases w "debug" (fun w => cmd_debug w who) with h2 | h2
    · rw [h1, h2]; exact h
    · rw [h1, h2]; exact daemonAux_cmd_debug w who h
  · rcases run_gated_cases w "sing" (fun w => cmd_sing w who) with h2 | h2
    · rw [h1, h2]; exact h
    · rw [h1, h2]; exact daemonAux_cmd_sing w who h
  · rcases run_gated_cases w "reset" (fun w => cmd_reset sr w who) with h2 | h2
    · rw [h1, h2]; exact h
    · rw [h1, h2]; exact daemonAux_cmd_reset sr w who h
  · rw [h1]; exact daemonAux_cmd_inventory w who h
  · rw [h1]; exact daemonAux_cmd_state w who h
  · rw [h1]; exact daemonAux_cmd_say w who h
  · rw [h1]; exact h
  · rw [h1]; exact h

theorem daemonAux_reachable (w : World) (hr : Reachable w) : DaemonAux w := by
  induction hr with
  | init => exact ⟨rfl, rfl, rfl, by decide, fun hge => absurd hge (by decide)⟩
  | step w w2 hr hstep ih =>
    cases hstep with
    | tickStep g => exact daemonAux_tick w g ih
    | cmdStep sr who verb arg => exact daemonAux_handle sr w who verb arg ih

theorem map_sum_three {α : Type} (f : α → Nat) (d : α) {l : List α}
    (h : l.length = 3) :
    (l.map f).sum = f (l.getD 0 d) + f (l.getD 1 d) + f (l.getD 2 d) := by
  cases l with
  | nil => simp at h
  | cons a t =>
    cases t with
    | nil => simp at h
    | cons b t2 =>
      cases t2 with
      | nil => simp at h
      | cons c t3 =>
        cases t3 with
        | nil =>
          simp only [List.map_cons, List.map_nil, List.sum_cons, List.sum_nil,
            List.getD_cons_zero, List.getD_cons_succ]
          omega
        | cons dd t4 => simp at h

theorem daemonInv_of_aux (w : World) (h : DaemonAux w) : DaemonInv w := by
  obtain ⟨hlen, h0, h1, h2, h3⟩ := h
  have hsum : daemon_count w = room_daemons (roomObjs w 0) +
      room_daemons (roomObjs w 1) + room_daemons (roomObjs w 2) := by
    unfold daemon_count
    exact map_sum_three room_daemons [] hlen
  unfold ROOM_NURSERY at h0
  unfold ROOM_BUFFET at h1
  unfold ROOM_FIELDS at h2 h3
  unfold DaemonInv
  refine ⟨by omega, fun hc => h3 (by omega)⟩

/-- C10: in every reachable state at most one baby-daemon object exists
across all rooms and, whenever one is present, the stray-loose flag
daemon_lost is set; the ttl-decay cleanup phase never touches the flag
(so a daemon despawning through decay leaves daemon_lost set); and while
daemon_lost is set spawn_daemon is a no-op, so no new daemon can spawn
until a rescue clears the flag. -/
theorem C10_daemon_uniqueness (w : World) (hr : Reachable w) :
    DaemonInv w ∧
    (∀ w2 : World, (cleanup_phase w2).sys.daemon_lost = w2.sys.daemon_lost) ∧
    (∀ (w2 : World) (g : Rng), w2.sys.daemon_lost = true →
      spawn_daemon w2 g = (w2, g)) := by
  refine ⟨daemonInv_of_aux w (daemonAux_reachable w hr), ?_, ?_⟩
  · intro w2
    rw [cleanup_phase_sys]
  · intro w2 g hflag
    unfold spawn_daemon
    split_ifs with h1
    · rfl
    · rfl

/-- C10 witness: the invariant holds in the freshly initialized world,
and with the stray-loose flag set spawn_daemon leaves the world alone. -/
theorem C10_witness :
    DaemonInv initWorld ∧
    (cleanup_phase initWorld).sys.daemon_lost = initWorld.sys.daemon_lost ∧
    spawn_daemon { initWorld with sys := { initWorld.sys with daemon_lost := true } } g0 =
      ({ initWorld with sys := { initWorld.sys with daemon_lost := true } }, g0) := by
  have h := C10_daemon_uniqueness initWorld Reachable.init
  exact ⟨h.1, h.2.1 initWorld, h.2.2 _ g0 rfl⟩

end MonsterGame
